import Mathlib

/-!
Verification development for the sms-parser repository
(`parser-core-python`): a shallow embedding of the message
classification and field-extraction engine, together with proofs of the
specified properties.

The Python code drives almost every extraction through `re`, so the
embedding contains a small executable model of the subset of Python's
regular-expression semantics that the repository uses: a backtracking
matcher in continuation-passing style (leftmost match, greedy/lazy
quantifier priority, alternation tries the left branch first, capture
groups record the latest repetition) plus a parser from pattern strings
to the regex AST, so that every pattern below can be written exactly as
the pattern string that appears in the source.

Modelling conventions:
* Python `str` is modelled as `List Char`; `Decimal` as `Rat`;
  fallible code returns `Option` / `Except`.
* `\d`, `\w`, `\s`, `.lower()`, `.isalpha()` etc. are modelled at ASCII
  precision, which is exact for every string any claim quantifies over
  or evaluates.
* `$` is modelled as end-of-input (Python additionally lets `$` match
  just before a final newline; no string considered here ends in a
  newline).
-/

namespace SmsParser

/-! ## A model of the used subset of Python `re` -/

/-- One item of a character class `[...]`. -/
inductive CCItem where
  | ch (c : Char)
  | range (lo hi : Char)
  | digit
  | word
  | space
deriving DecidableEq, Repr

/-- Regex abstract syntax.  `star`/`opt` carry their laziness, `grp` its
Python group number.  `fail` matches nothing; it is the result of
compiling an unsupported pattern string, so that a compilation mistake
surfaces as an unprovable concrete evaluation instead of a silently
wrong match. -/
inductive RE where
  | fail
  | eps
  | lit (c : Char)
  | cls (neg : Bool) (items : List CCItem)
  | dot
  | cat (a b : RE)
  | alt (a b : RE)
  | star (lz : Bool) (a : RE)
  | opt (lz : Bool) (a : RE)
  | grp (n : Nat) (a : RE)
  | bos
  | eos
  | wb
deriving DecidableEq, Repr

/-- ASCII lower-casing, the fragment of Python `str.lower` exercised
here. -/
def asciiLower (c : Char) : Char :=
  if 'A' ≤ c ∧ c ≤ 'Z' then Char.ofNat (c.toNat + 32) else c

/-- ASCII upper-casing (Python `str.upper`). -/
def asciiUpper (c : Char) : Char :=
  if 'a' ≤ c ∧ c ≤ 'z' then Char.ofNat (c.toNat - 32) else c

/-- Swap the ASCII case of a character. -/
def flipCase (c : Char) : Char :=
  if 'A' ≤ c ∧ c ≤ 'Z' then Char.ofNat (c.toNat + 32)
  else if 'a' ≤ c ∧ c ≤ 'z' then Char.ofNat (c.toNat - 32)
  else c

/-- `\w` (ASCII fragment). -/
def isWordCh (c : Char) : Bool := c.isAlphanum || c = '_'

/-- `\s` (ASCII fragment). -/
def isSpaceCh (c : Char) : Bool :=
  c = ' ' || c = '\t' || c = '\n' || c = '\r' || c = '\x0b' || c = '\x0c'

/-- Does a class item match a character (exact case)? -/
def ccItemMatch (it : CCItem) (c : Char) : Bool :=
  match it with
  | .ch d => d = c
  | .range lo hi => decide (lo ≤ c) && decide (c ≤ hi)
  | .digit => c.isDigit
  | .word => isWordCh c
  | .space => isSpaceCh c

/-- Class match, honouring `re.IGNORECASE` by also trying the
case-swapped character. -/
def ccMatch (ign neg : Bool) (items : List CCItem) (c : Char) : Bool :=
  let base := items.any fun it =>
    ccItemMatch it c || (ign && ccItemMatch it (flipCase c))
  if neg then !base else base

/-- Literal match, honouring `re.IGNORECASE`. -/
def chEq (ign : Bool) (p c : Char) : Bool :=
  p = c || (ign && p = flipCase c)

/-- Matcher state: the unconsumed input, the absolute position, the
character just before the position (for `\b`), and the capture spans
recorded so far, most recent first (Python keeps the last repetition of
a group). -/
structure MSt where
  rest : List Char
  pos : Nat
  prev : Option Char
  caps : List (Nat × Nat × Nat)
deriving Repr

/-- Iteration of `star` for a given body matcher, bounded by the input
length: Python's engine never repeats a loop body that consumed
nothing (the progress check below), so at most `|rest| + 1` iterations
can occur and the bound is never exhausted. -/
def starLoop (body : MSt → (MSt → Option MSt) → Option MSt) :
    Nat → Bool → MSt → (MSt → Option MSt) → Option MSt
  | 0, _, st, k => k st
  | n + 1, lz, st, k =>
    if lz then
      match k st with
      | some r => some r
      | none =>
        body st (fun st1 =>
          if st.pos < st1.pos then starLoop body n lz st1 k else none)
    else
      match body st (fun st1 =>
          if st.pos < st1.pos then starLoop body n lz st1 k else none) with
      | some r => some r
      | none => k st

/-- Backtracking matcher in continuation-passing style.  The
alternation tries the left branch first and a greedy quantifier tries
the longer match first, exactly Python's backtracking order, so the
first success found is the match Python reports. -/
def mrun (ign : Bool) : RE → MSt → (MSt → Option MSt) → Option MSt
  | .fail, _, _ => none
  | .eps, st, k => k st
  | .lit c, st, k =>
    match st.rest with
    | [] => none
    | d :: rs => if chEq ign c d then k ⟨rs, st.pos + 1, some d, st.caps⟩ else none
  | .cls neg items, st, k =>
    match st.rest with
    | [] => none
    | d :: rs => if ccMatch ign neg items d then k ⟨rs, st.pos + 1, some d, st.caps⟩ else none
  | .dot, st, k =>
    match st.rest with
    | [] => none
    | d :: rs => if d = '\n' then none else k ⟨rs, st.pos + 1, some d, st.caps⟩
  | .cat a b, st, k => mrun ign a st (fun st1 => mrun ign b st1 k)
  | .alt a b, st, k =>
    match mrun ign a st k with
    | some r => some r
    | none => mrun ign b st k
  | .opt lz a, st, k =>
    if lz then
      match k st with
      | some r => some r
      | none => mrun ign a st k
    else
      match mrun ign a st k with
      | some r => some r
      | none => k st
  | .star lz a, st, k =>
    starLoop (fun st1 k1 => mrun ign a st1 k1) (st.rest.length + 1) lz st k
  | .grp n a, st, k =>
    mrun ign a st (fun st1 => k { st1 with caps := (n, st.pos, st1.pos) :: st1.caps })
  | .bos, st, k => if st.pos = 0 then k st else none
  | .eos, st, k => if st.rest.isEmpty then k st else none
  | .wb, st, k =>
    let before := match st.prev with | none => false | some c => isWordCh c
    let after := match st.rest with | [] => false | c :: _ => isWordCh c
    if before ≠ after then k st else none

/-- A compiled pattern: the AST plus its `re.IGNORECASE` flag. -/
structure Pattern where
  re : RE
  ign : Bool
deriving Repr

/-- A match: the span of group 0 and the recorded capture spans. -/
structure ReMatch where
  start : Nat
  stop : Nat
  caps : List (Nat × Nat × Nat)
deriving Repr

/-- Try to match the pattern at one fixed position (`re.match` when the
position is 0).  `prev` is the character before the position. -/
def matchAt (p : Pattern) (s : List Char) (pos : Nat) (prev : Option Char) : Option ReMatch :=
  match mrun p.ign p.re ⟨s, pos, prev, []⟩ some with
  | some st => some ⟨pos, st.pos, st.caps⟩
  | none => none

/-- `re.search`: try each start position left to right. -/
def searchFrom (p : Pattern) : List Char → Nat → Option Char → Option ReMatch
  | s, pos, prev =>
    match matchAt p s pos prev with
    | some m => some m
    | none =>
      match s with
      | [] => none
      | c :: rs => searchFrom p rs (pos + 1) (some c)

/-- `pattern.search(message)`. -/
def research (p : Pattern) (s : List Char) : Option ReMatch :=
  searchFrom p s 0 none

/-- `pattern.match(message)`. -/
def rematch (p : Pattern) (s : List Char) : Option ReMatch :=
  matchAt p s 0 none

/-- The text of span `[a, b)` of `s`. -/
def sliceOf (s : List Char) (a b : Nat) : List Char :=
  (s.drop a).take (b - a)

/-- `m.group(n)` for `n ≥ 1`: the latest recorded span of that group,
or `none` if the group did not take part in the match. -/
def ReMatch.groupN (m : ReMatch) (s : List Char) (n : Nat) : Option (List Char) :=
  match m.caps.find? (fun c => c.1 = n) with
  | some c => some (sliceOf s c.2.1 c.2.2)
  | none => none

/-- `m.group(0)`: the whole matched text. -/
def ReMatch.group0 (m : ReMatch) (s : List Char) : List Char :=
  sliceOf s m.start m.stop

/-! ### Compiling pattern strings

A recursive-descent parser for the pattern syntax the repository uses,
so each `re.compile` argument below is transcribed verbatim.  `fuel`
only bounds the recursion depth; it is always ample. -/

/-- `n`-fold repetition `a a … a`. -/
def reCopies : Nat → RE → RE
  | 0, _ => .eps
  | n + 1, a => .cat a (reCopies n a)

/-- Up to `n` further repetitions: `(a (a (…)?)?)?`, greedy or lazy. -/
def reOptChain (lz : Bool) : Nat → RE → RE
  | 0, _ => .eps
  | n + 1, a => .opt lz (.cat a (reOptChain lz n a))

/-- Read a decimal number (at least one digit). -/
def readNat : List Char → Option (Nat × List Char)
  | s =>
    let ds := s.takeWhile Char.isDigit
    if ds.isEmpty then none
    else some (ds.foldl (fun n c => n * 10 + (c.toNat - 48)) 0, s.drop ds.length)

/-- Parse one escape character into a class item. -/
def escItem (c : Char) : CCItem :=
  match c with
  | 'd' => .digit
  | 'w' => .word
  | 's' => .space
  | 'n' => .ch '\n'
  | 't' => .ch '\t'
  | 'r' => .ch '\r'
  | c => .ch c

/-- Parse the items of a character class up to the closing `]`. -/
def pClsItems (fuel : Nat) : List Char → Option (List CCItem × List Char)
  | s =>
    match fuel with
    | 0 => none
    | fuel + 1 =>
      match s with
      | [] => none
      | ']' :: rest => some ([], rest)
      | '\\' :: c :: rest =>
        match pClsItems fuel rest with
        | some (items, r) => some (escItem c :: items, r)
        | none => none
      | a :: '-' :: b :: rest =>
        if b = ']' then
          match pClsItems fuel (b :: rest) with
          | some (items, r) => some (.ch a :: .ch '-' :: items, r)
          | none => none
        else
          match pClsItems fuel rest with
          | some (items, r) => some (.range a b :: items, r)
          | none => none
      | a :: rest =>
        match pClsItems fuel rest with
        | some (items, r) => some (.ch a :: items, r)
        | none => none

/-- Apply a parsed quantifier suffix to an atom, if one is present. -/
def pQuant (a : RE) : List Char → RE × List Char
  | '*' :: '?' :: rest => (.star true a, rest)
  | '*' :: rest => (.star false a, rest)
  | '+' :: '?' :: rest => (.cat a (.star true a), rest)
  | '+' :: rest => (.cat a (.star false a), rest)
  | '?' :: '?' :: rest => (.opt true a, rest)
  | '?' :: rest => (.opt false a, rest)
  | '\x7b' :: rest =>
    (match readNat rest with
     | some (lo, r1) =>
       match r1 with
       | '\x7d' :: r2 => (reCopies lo a, r2)
       | ',' :: '\x7d' :: r2 => (.cat (reCopies lo a) (.star false a), r2)
       | ',' :: r2 =>
         (match readNat r2 with
          | some (hi, '\x7d' :: '?' :: r3) =>
            (.cat (reCopies lo a) (reOptChain true (hi - lo) a), r3)
          | some (hi, '\x7d' :: r3) =>
            (.cat (reCopies lo a) (reOptChain false (hi - lo) a), r3)
          | _ => (.fail, r2))
       | _ => (.fail, r1)
     | none => (.fail, rest))
  | rest => (a, rest)

mutual

/-- Parse an alternation `seq | seq | …`. -/
def pAlt (fuel gn : Nat) (s : List Char) : Option (RE × List Char × Nat) :=
  match fuel with
  | 0 => none
  | fuel + 1 =>
    match pSeq fuel gn s with
    | none => none
    | some (a, rest, gn1) =>
      match rest with
      | '|' :: rest1 =>
        match pAlt fuel gn1 rest1 with
        | some (b, rest2, gn2) => some (.alt a b, rest2, gn2)
        | none => none
      | _ => some (a, rest, gn1)

/-- Parse a sequence of quantified atoms, stopping at `|`, `)` or the
end. -/
def pSeq (fuel gn : Nat) (s : List Char) : Option (RE × List Char × Nat) :=
  match fuel with
  | 0 => none
  | fuel + 1 =>
    match s with
    | [] => some (.eps, [], gn)
    | ')' :: _ => some (.eps, s, gn)
    | '|' :: _ => some (.eps, s, gn)
    | _ =>
      match pAtom fuel gn s with
      | none => none
      | some (a, rest, gn1) =>
        let (aq, rest1) := pQuant a rest
        match pSeq fuel gn1 rest1 with
        | some (b, rest2, gn2) => some (.cat aq b, rest2, gn2)
        | none => none

/-- Parse one atom: a group, class, anchor, escape or literal. -/
def pAtom (fuel gn : Nat) (s : List Char) : Option (RE × List Char × Nat) :=
  match fuel with
  | 0 => none
  | fuel + 1 =>
    match s with
    | [] => none
    | '(' :: '?' :: ':' :: rest =>
      (match pAlt fuel gn rest with
       | some (a, ')' :: rest1, gn1) => some (a, rest1, gn1)
       | _ => none)
    | '(' :: rest =>
      (match pAlt fuel (gn + 1) rest with
       | some (a, ')' :: rest1, gn1) => some (.grp gn a, rest1, gn1)
       | _ => none)
    | '[' :: '^' :: rest =>
      (match pClsItems fuel rest with
       | some (items, rest1) => some (.cls true items, rest1, gn)
       | none => none)
    | '[' :: rest =>
      (match pClsItems fuel rest with
       | some (items, rest1) => some (.cls false items, rest1, gn)
       | none => none)
    | '.' :: rest => some (.dot, rest, gn)
    | '^' :: rest => some (.bos, rest, gn)
    | '$' :: rest => some (.eos, rest, gn)
    | '\\' :: 'd' :: rest => some (.cls false [.digit], rest, gn)
    | '\\' :: 'w' :: rest => some (.cls false [.word], rest, gn)
    | '\\' :: 's' :: rest => some (.cls false [.space], rest, gn)
    | '\\' :: 'b' :: rest => some (.wb, rest, gn)
    | '\\' :: 'n' :: rest => some (.lit '\n', rest, gn)
    | '\\' :: 't' :: rest => some (.lit '\t', rest, gn)
    | '\\' :: 'r' :: rest => some (.lit '\r', rest, gn)
    | '\\' :: c :: rest => some (.lit c, rest, gn)
    | c :: rest => some (.lit c, rest, gn)

end

/-- Compile a pattern string; an unsupported pattern yields `RE.fail`,
which matches nothing and would surface as an unprovable evaluation. -/
def compileRE (pat : String) : RE :=
  match pAlt (pat.length * 4 + 64) 1 pat.toList with
  | some (r, [], _) => r
  | _ => RE.fail

/-- `re.compile(pat)`. -/
def reP (pat : String) : Pattern := ⟨compileRE pat, false⟩

/-- `re.compile(pat, re.IGNORECASE)`. -/
def reI (pat : String) : Pattern := ⟨compileRE pat, true⟩

/-- A literal regex for an already-escaped text (the code only ever
passes `re.escape` a string of digits, on which escaping is the
identity). -/
def litsRE : List Char → RE
  | [] => .eps
  | c :: cs => .cat (.lit c) (litsRE cs)

/-- `pattern.sub("", s)`: delete every non-overlapping match, left to
right; on an empty match the character at the position is kept and
scanning advances.  The fuel starts at `|s| + 1` and every step either
emits or deletes at least one character. -/
def resubEmptyGo (p : Pattern) : Nat → List Char → Nat → Option Char → List Char
  | 0, s, _, _ => s
  | fuel + 1, s, pos, prev =>
    match matchAt p s pos prev with
    | some m =>
      if m.stop ≤ m.start then
        match s with
        | [] => []
        | c :: rs => c :: resubEmptyGo p fuel rs (pos + 1) (some c)
      else
        let len := m.stop - m.start
        resubEmptyGo p fuel (s.drop len) m.stop ((s.take len).getLast?)
    | none =>
      match s with
      | [] => []
      | c :: rs => c :: resubEmptyGo p fuel rs (pos + 1) (some c)

/-- `pattern.sub("", s)`. -/
def resubEmpty (p : Pattern) (s : List Char) : List Char :=
  resubEmptyGo p (s.length + 1) s 0 none

/-! ### Python string primitives (ASCII fragment) -/

/-- `needle in hay` (substring containment). -/
def containsL : List Char → List Char → Bool
  | hay, needle =>
    if needle.isPrefixOf hay then true
    else
      match hay with
      | [] => false
      | _ :: rs => containsL rs needle

/-- `s.lower()`. -/
def lowerL (s : List Char) : List Char := s.map asciiLower

/-- `s.upper()`. -/
def upperL (s : List Char) : List Char := s.map asciiUpper

/-- `s.strip()`. -/
def stripL (s : List Char) : List Char :=
  ((s.dropWhile isSpaceCh).reverse.dropWhile isSpaceCh).reverse

/-- The numeric value of a digit string. -/
def digitsVal (ds : List Char) : Nat :=
  ds.foldl (fun n c => n * 10 + (c.toNat - 48)) 0

/-- `int(s)` on the digit-only strings produced by the account
patterns (`none` models `ValueError`). -/
def pyInt (cs : List Char) : Option Nat :=
  if cs ≠ [] ∧ cs.all Char.isDigit then some (digitsVal cs) else none

/-- `Decimal(s)` on the shapes the amount groups can take: digits with
at most one decimal point and at least one digit; `none` models
`InvalidOperation`.  The value `⟨integer digits⟩.⟨fraction digits⟩` is
built as `⟨all digits⟩ / 10^(#fraction digits)` via `mkRat`. -/
def parseDecimal (cs : List Char) : Option Rat :=
  let intPart := cs.takeWhile Char.isDigit
  let rest := cs.drop intPart.length
  match rest with
  | [] => if intPart.isEmpty then none else some (digitsVal intPart)
  | '.' :: frac =>
    if frac.all Char.isDigit ∧ (intPart ≠ [] ∨ frac ≠ []) then
      some (mkRat (digitsVal (intPart ++ frac)) (10 ^ frac.length))
    else none
  | _ => none

/-- `Decimal(s.replace(",", ""))`, the idiom used by every amount
extractor. -/
def decimalOfGroup (g : List Char) : Option Rat :=
  parseDecimal (g.filter (fun c => c ≠ ','))

/-! ## transaction_type.py -/

/-- `TransactionType`. -/
inductive TransactionType where
  | INCOME
  | EXPENSE
  | CREDIT
  | TRANSFER
  | INVESTMENT
  | BALANCE_UPDATE
deriving DecidableEq, Repr

/-! ## compiled_patterns.py -/

namespace CompiledPatterns

namespace Amount

def RS_PATTERN : Pattern := reI "Rs\\.?\\s*([0-9,]+(?:\\.\\d\x7b2\x7d)?)"

def INR_PATTERN : Pattern := reI "INR\\s*([0-9,]+(?:\\.\\d\x7b2\x7d)?)"

def RUPEE_SYMBOL_PATTERN : Pattern := reP "₹\\s*([0-9,]+(?:\\.\\d\x7b2\x7d)?)"

def ALL_PATTERNS : List Pattern := [RS_PATTERN, INR_PATTERN, RUPEE_SYMBOL_PATTERN]

end Amount

namespace Reference

def GENERIC_REF : Pattern := reI "(?:Ref|Reference|Txn|Transaction)(?:\\s+No)?[:\\s]+([A-Z0-9]+)"

def UPI_REF : Pattern := reI "UPI[:\\s]+([0-9]+)"

def REF_NUMBER : Pattern := reI "Reference\\s+Number[:\\s]+([A-Z0-9]+)"

def ALL_PATTERNS : List Pattern := [GENERIC_REF, UPI_REF, REF_NUMBER]

end Reference

namespace Account

def AC_WITH_MASK : Pattern := reI "(?:A/c|Account|Acct)(?:\\s+No)?\\.?\\s+(?:XX+|\\*+)?(\\d\x7b3,4\x7d)"

def CARD_WITH_MASK : Pattern := reI "Card\\s+(?:XX+|\\*+)?(\\d\x7b4\x7d)"

def ALL_PATTERNS : List Pattern := [AC_WITH_MASK, CARD_WITH_MASK]

end Account

namespace Balance

def AVL_BAL_RS : Pattern := reI "(?:Bal|Balance|Avl Bal|Available Balance)[:\\s]+Rs\\.?\\s*([0-9,]+(?:\\.\\d\x7b2\x7d)?)"

def AVL_BAL_INR : Pattern := reI "(?:Bal|Balance|Avl Bal|Available Balance)[:\\s]+INR\\s*([0-9,]+(?:\\.\\d\x7b2\x7d)?)"

def AVL_BAL_RUPEE : Pattern := reI "(?:Bal|Balance|Avl Bal|Available Balance)[:\\s]+₹\\s*([0-9,]+(?:\\.\\d\x7b2\x7d)?)"

def AVL_BAL_NO_CURRENCY : Pattern := reI "(?:Bal|Balance|Avl Bal|Available Balance)[:\\s]+([0-9,]+(?:\\.\\d\x7b2\x7d)?)"

def UPDATED_BAL_RS : Pattern := reI "(?:Updated Balance|Remaining Balance)[:\\s]+Rs\\.?\\s*([0-9,]+(?:\\.\\d\x7b2\x7d)?)"

def UPDATED_BAL_INR : Pattern := reI "(?:Updated Balance|Remaining Balance)[:\\s]+INR\\s*([0-9,]+(?:\\.\\d\x7b2\x7d)?)"

def ALL_PATTERNS : List Pattern :=
  [AVL_BAL_RS, AVL_BAL_INR, AVL_BAL_RUPEE, AVL_BAL_NO_CURRENCY, UPDATED_BAL_RS, UPDATED_BAL_INR]

end Balance

namespace Merchant

def TO_PATTERN : Pattern := reI "to\\s+([^\\.\\n]+?)(?:\\s+on|\\s+at|\\s+Ref|\\s+UPI)"

def FROM_PATTERN : Pattern := reI "from\\s+([^\\.\\n]+?)(?:\\s+on|\\s+at|\\s+Ref|\\s+UPI)"

def AT_PATTERN : Pattern := reI "at\\s+([^\\.\\n]+?)(?:\\s+on|\\s+Ref)"

def FOR_PATTERN : Pattern := reI "for\\s+([^\\.\\n]+?)(?:\\s+on|\\s+at|\\s+Ref)"

def ALL_PATTERNS : List Pattern := [TO_PATTERN, FROM_PATTERN, AT_PATTERN, FOR_PATTERN]

end Merchant

namespace HDFC

def DLT_PATTERNS : List Pattern :=
  [reP "^[A-Z]\x7b2\x7d-HDFCBK.*$",
   reP "^[A-Z]\x7b2\x7d-HDFC.*$",
   reP "^HDFC-[A-Z]+$",
   reP "^[A-Z]\x7b2\x7d-HDFCB.*$"]

end HDFC

namespace Cleaning

def TRAILING_PARENTHESES : Pattern := reP "\\s*\\(.*?\\)\\s*$"

def REF_NUMBER_SUFFIX : Pattern := reI "\\s+Ref\\s+No.*"

def DATE_SUFFIX : Pattern := reP "\\s+on\\s+\\d\x7b2\x7d.*"

def UPI_SUFFIX : Pattern := reI "\\s+UPI.*"

def TIME_SUFFIX : Pattern := reP "\\s+at\\s+\\d\x7b2\x7d:\\d\x7b2\x7d.*"

def TRAILING_DASH : Pattern := reP "\\s*-\\s*$"

def PVT_LTD : Pattern := reI "(\\s+PVT\\.?\\s*LTD\\.?|\\s+PRIVATE\\s+LIMITED)$"

def LTD : Pattern := reI "(\\s+LTD\\.?|\\s+LIMITED)$"

end Cleaning

namespace Date

def DD_MM_YYYY : Pattern := reP "\\d\x7b1,2\x7d/\\d\x7b1,2\x7d/\\d\x7b4\x7d"

def DD_MMM_YY : Pattern := reI "\\d\x7b1,2\x7d-[A-Za-z]\x7b3\x7d-\\d\x7b2\x7d"

end Date

end CompiledPatterns

/-! ## parsed_transaction.py — the canonical output record -/

/-- `ParsedTransaction` (the `transaction_hash`, `from_account` and
`to_account` fields keep their constructor defaults `None` on every
path the engine takes, and are omitted). -/
structure ParsedTransaction where
  amount : Rat
  type : TransactionType
  merchant : Option (List Char)
  reference : Option (List Char)
  accountLast4 : Option (List Char)
  balance : Option Rat
  creditLimit : Option Rat
  smsBody : List Char
  sender : List Char
  timestamp : Int
  bankName : List Char
  isFromCard : Bool
  currency : List Char
deriving DecidableEq, Repr

/-! ## bank/bank_parser.py — the abstract parser and its defaults

Python dispatches the pipeline steps through `self`, so a concrete
parser is modelled as a record of the methods `BankParser.parse`
calls; each concrete record below instantiates the fields with the
class's own overrides or with the inherited defaults. -/

/-- The overridable methods consumed by `BankParser.parse`. -/
structure BankParserM where
  bankName : List Char
  currency : List Char
  is_transaction_message : List Char → Bool
  extract_amount : List Char → Option Rat
  extract_transaction_type : List Char → Option TransactionType
  extract_merchant : List Char → List Char → Option (List Char)
  extract_reference : List Char → Option (List Char)
  extract_account_last4 : List Char → Option (List Char)
  extract_balance : List Char → Option Rat
  extract_available_limit : List Char → Option Rat
  detect_is_card : List Char → Bool

namespace BankParser

/-- `BankParser.parse`: the template-method pipeline. -/
def parse (p : BankParserM) (smsBody sender : List Char) (timestamp : Int) :
    Option ParsedTransaction :=
  if ¬ p.is_transaction_message smsBody then none
  else
    match p.extract_amount smsBody with
    | none => none
    | some amount =>
      match p.extract_transaction_type smsBody with
      | none => none
      | some txnType =>
        let availableLimit :=
          if txnType = TransactionType.CREDIT then p.extract_available_limit smsBody else none
        some
          { amount
            type := txnType
            merchant := p.extract_merchant smsBody sender
            reference := p.extract_reference smsBody
            accountLast4 := p.extract_account_last4 smsBody
            balance := p.extract_balance smsBody
            creditLimit := availableLimit
            smsBody
            sender
            timestamp
            bankName := p.bankName
            isFromCard := p.detect_is_card smsBody
            currency := p.currency }

/-- `BankParser.is_transaction_message`. -/
def is_transaction_message (message : List Char) : Bool :=
  let lower := lowerL message
  if ["otp", "one time password", "verification code"].any
      (fun kw => containsL lower kw.toList) then false
  else if ["offer", "discount", "cashback offer", "win "].any
      (fun kw => containsL lower kw.toList) then false
  else if ["has requested", "payment request", "collect request",
           "requesting payment", "requests rs", "ignore if already paid"].any
      (fun kw => containsL lower kw.toList) then false
  else if containsL lower ("have received payment").toList then false
  else if ["is due", "min amount due", "minimum amount due",
           "in arrears", "is overdue", "ignore if paid"].any
      (fun kw => containsL lower kw.toList) then false
  else if containsL lower ("pls pay").toList && containsL lower ("min of").toList then false
  else
    ["debited", "credited", "withdrawn", "deposited",
     "spent", "received", "transferred", "paid"].any
      (fun kw => containsL lower kw.toList)

/-- Shared shape of every "first pattern whose decimal group parses"
extractor. -/
def firstDecimalOf : List Pattern → List Char → Option Rat
  | [], _ => none
  | p :: ps, message =>
    match research p message with
    | some m =>
      match m.groupN message 1 with
      | some g =>
        match decimalOfGroup g with
        | some a => some a
        | none => firstDecimalOf ps message
      | none => firstDecimalOf ps message
    | none => firstDecimalOf ps message

/-- `BankParser.extract_amount`. -/
def extract_amount (message : List Char) : Option Rat :=
  firstDecimalOf CompiledPatterns.Amount.ALL_PATTERNS message

/-- `BankParser.is_investment_transaction` (receives the lower-cased
message). -/
def is_investment_transaction (lowerMessage : List Char) : Bool :=
  ["iccl", "indian clearing corporation", "nsccl", "nse clearing",
   "clearing corporation", "nach", "ach", "ecs",
   "groww", "zerodha", "upstox", "kite", "kuvera",
   "paytm money", "etmoney", "coin by zerodha", "smallcase",
   "angel one", "angel broking", "5paisa",
   "icici securities", "icici direct", "hdfc securities",
   "kotak securities", "motilal oswal", "sharekhan",
   "edelweiss", "axis direct", "sbi securities",
   "mutual fund", "sip", "elss", "ipo", "folio",
   "demat", "stockbroker", "digital gold", "sovereign gold",
   "nse", "bse", "cdsl", "nsdl"].any
    (fun kw => containsL lowerMessage kw.toList)

/-- `BankParser.extract_transaction_type`, parameterized by the
`self.is_investment_transaction` the object dispatches to. -/
def extract_transaction_type (isInv : List Char → Bool) (message : List Char) :
    Option TransactionType :=
  let lower := lowerL message
  if isInv lower then some .INVESTMENT
  else if containsL lower ("debited").toList then some .EXPENSE
  else if containsL lower ("withdrawn").toList then some .EXPENSE
  else if containsL lower ("spent").toList then some .EXPENSE
  else if containsL lower ("charged").toList then some .EXPENSE
  else if containsL lower ("paid").toList then some .EXPENSE
  else if containsL lower ("purchase").toList then some .EXPENSE
  else if containsL lower ("deducted").toList then some .EXPENSE
  else if containsL lower ("credited").toList then some .INCOME
  else if containsL lower ("deposited").toList then some .INCOME
  else if containsL lower ("received").toList then some .INCOME
  else if containsL lower ("refund").toList then some .INCOME
  else if containsL lower ("cashback").toList &&
          !containsL lower ("earn cashback").toList then some .INCOME
  else none

/-- `BankParser.clean_merchant_name`. -/
def clean_merchant_name (merchant : List Char) : List Char :=
  let r := merchant
  let r := resubEmpty CompiledPatterns.Cleaning.TRAILING_PARENTHESES r
  let r := resubEmpty CompiledPatterns.Cleaning.REF_NUMBER_SUFFIX r
  let r := resubEmpty CompiledPatterns.Cleaning.DATE_SUFFIX r
  let r := resubEmpty CompiledPatterns.Cleaning.UPI_SUFFIX r
  let r := resubEmpty CompiledPatterns.Cleaning.TIME_SUFFIX r
  let r := resubEmpty CompiledPatterns.Cleaning.TRAILING_DASH r
  let r := resubEmpty CompiledPatterns.Cleaning.PVT_LTD r
  let r := resubEmpty CompiledPatterns.Cleaning.LTD r
  stripL r

/-- Modelled from the spec: `constants.py` is not under `src/`
(`bank_parser.py` imports `Constants.Parsing.MIN_MERCHANT_NAME_LENGTH`
from it); the spec fixes no numeric value, and no claim below depends
on the exact choice.  A merchant label shorter than this many
characters is rejected. -/
def MIN_MERCHANT_NAME_LENGTH : Nat := 2

/-- `BankParser.is_valid_merchant_name`. -/
def is_valid_merchant_name (name : List Char) : Bool :=
  decide (MIN_MERCHANT_NAME_LENGTH ≤ name.length)
  && name.any Char.isAlpha
  && !(["USING", "VIA", "THROUGH", "BY", "WITH",
        "FOR", "TO", "FROM", "AT", "THE"].any
        (fun w => upperL name = w.toList))
  && !(name.all Char.isDigit)
  && !(name.contains '@')

/-- Shared loop of `extract_merchant`: first pattern whose cleaned,
validated group is accepted. -/
def firstMerchantOf (clean : List Char → List Char) (isValid : List Char → Bool) :
    List Pattern → List Char → Option (List Char)
  | [], _ => none
  | p :: ps, message =>
    match research p message with
    | some m =>
      match m.groupN message 1 with
      | some g =>
        let merchant := clean (stripL g)
        if isValid merchant then some merchant
        else firstMerchantOf clean isValid ps message
      | none => firstMerchantOf clean isValid ps message
    | none => firstMerchantOf clean isValid ps message

/-- `BankParser.extract_merchant`, parameterized by the
`self.clean_merchant_name` / `self.is_valid_merchant_name` the object
dispatches to.  The `sender` argument is unused by the default. -/
def extract_merchant (clean : List Char → List Char) (isValid : List Char → Bool)
    (message : List Char) (_sender : List Char) : Option (List Char) :=
  firstMerchantOf clean isValid CompiledPatterns.Merchant.ALL_PATTERNS message

/-- `BankParser.extract_reference`. -/
def extract_reference (message : List Char) : Option (List Char) :=
  let rec go : List Pattern → Option (List Char)
    | [] => none
    | p :: ps =>
      match research p message with
      | some m =>
        match m.groupN message 1 with
        | some g => some (stripL g)
        | none => go ps
      | none => go ps
  go CompiledPatterns.Reference.ALL_PATTERNS

/-- The two reference-number patterns of
`BankParser._is_valid_account_last4`. -/
def rrnPatterns : List Pattern :=
  [reI "RRN\\s+(?:No\\.?)?(\\d\x7b8,16\x7d)",
   reI "Ref\\s+(?:No\\.?)?(\\d\x7b8,16\x7d)"]

/-- The four date-adjacency patterns of
`BankParser._is_valid_account_last4`, instantiated at an escaped
candidate. -/
def datePatterns (escaped : List Char) : List Pattern :=
  [⟨.cat (compileRE "\\d\x7b1,2\x7d[/-]\\d\x7b1,2\x7d[/-]") (litsRE escaped), false⟩,
   ⟨.cat (litsRE escaped) (compileRE "[/-]\\d\x7b1,2\x7d[/-]\\d\x7b1,2\x7d"), false⟩,
   ⟨.cat (compileRE "\\bon\\s+\\d\x7b1,2\x7d[/-]\\d\x7b1,2\x7d[/-]") (litsRE escaped), true⟩,
   ⟨.cat (compileRE "\\bdated\\s+\\d\x7b1,2\x7d[/-]\\d\x7b1,2\x7d[/-]") (litsRE escaped), true⟩]

/-- The year-context patterns of `BankParser._is_valid_account_last4`. -/
def yearCtxPatterns (escaped : List Char) : List Pattern :=
  [⟨.cat (compileRE "\\bon\\s+\\d\x7b1,2\x7d[/-]\\d\x7b1,2\x7d[/-]") (litsRE escaped), true⟩,
   ⟨.cat (compileRE "\\bdated\\s+.*?") (litsRE escaped), true⟩,
   ⟨.cat (litsRE escaped) (compileRE "(?:\\s|$)"), false⟩]

/-- The account-vocabulary pattern of
`BankParser._is_valid_account_last4`. -/
def acctVocabPattern (escaped : List Char) : Pattern :=
  ⟨.cat (compileRE "(?:A/c|Account|Acct).\x7b0,25\x7d") (litsRE escaped), true⟩

/-- `BankParser._is_valid_account_last4` (its `matched_text` parameter
is unused by the Python body and omitted). -/
def isValidAccountLast4 (last4 : List Char) (fullMessage : List Char) : Bool :=
  if (datePatterns last4).any (fun dp => (research dp fullMessage).isSome) then false
  else if rrnPatterns.any (fun rp =>
      match research rp fullMessage with
      | some rm =>
        match rm.groupN fullMessage 1 with
        | some g => containsL g last4
        | none => false
      | none => false) then false
  else
    match pyInt last4 with
    | some val =>
      if 2000 ≤ val ∧ val ≤ 2099 then
        if (yearCtxPatterns last4).any (fun yp => (research yp fullMessage).isSome) then
          if (research (acctVocabPattern last4) fullMessage).isSome then true
          else false
        else true
      else true
    | none => true

/-- The pattern loop of `BankParser.extract_account_last4`. -/
def accountPatternLoop (isValid : List Char → List Char → Bool) (message : List Char) :
    List Pattern → Option (List Char)
  | [] => none
  | p :: ps =>
    match research p message with
    | some m =>
      (match m.groupN message 1 with
       | some last4 =>
         if isValid last4 message then some last4 else accountPatternLoop isValid message ps
       | none => accountPatternLoop isValid message ps)
    | none => accountPatternLoop isValid message ps

/-- `BankParser.extract_account_last4`, parameterized by the validity
guard the object dispatches to. -/
def extract_account_last4 (isValid : List Char → List Char → Bool)
    (message : List Char) : Option (List Char) :=
  accountPatternLoop isValid message CompiledPatterns.Account.ALL_PATTERNS

/-- `BankParser.extract_balance`. -/
def extract_balance (message : List Char) : Option Rat :=
  firstDecimalOf CompiledPatterns.Balance.ALL_PATTERNS message

/-- The inline pattern list of `BankParser.extract_available_limit`. -/
def creditLimitPatterns : List Pattern :=
  [reI "Available\\s+limit\\s+Rs\\.([0-9,]+(?:\\.\\d\x7b2\x7d)?)",
   reI "Available\\s+limit:?\\s*Rs\\.?\\s*([0-9,]+(?:\\.\\d\x7b2\x7d)?)",
   reI "Avl\\s+Lmt:?\\s*Rs\\.?\\s*([0-9,]+(?:\\.\\d\x7b2\x7d)?)",
   reI "Avail\\s+Limit:?\\s*Rs\\.?\\s*([0-9,]+(?:\\.\\d\x7b2\x7d)?)",
   reI "Available\\s+Credit\\s+Limit:?\\s*Rs\\.?\\s*([0-9,]+(?:\\.\\d\x7b2\x7d)?)",
   reI "(?:^|\\s)Limit:?\\s*Rs\\.?\\s*([0-9,]+(?:\\.\\d\x7b2\x7d)?)"]

/-- `BankParser.extract_available_limit`. -/
def extract_available_limit (message : List Char) : Option Rat :=
  firstDecimalOf creditLimitPatterns message

/-- The masked-card regex of `BankParser.detect_is_card`. -/
def maskedCardRegex : Pattern := reP "(?:xx|XX|\\*\x7b2,\x7d)?\\d\x7b4\x7d"

/-- `BankParser.detect_is_card`. -/
def detect_is_card (message : List Char) : Bool :=
  let lower := lowerL message
  if ["a/c", "account", "ac ", "acc ",
      "saving account", "current account",
      "savings a/c", "current a/c"].any (fun p => containsL lower p.toList) then false
  else if ["card ending", "card xx", "debit card", "credit card",
           "card no.", "card number", "card *", "card x"].any
      (fun p => containsL lower p.toList) then true
  else if containsL lower ("ending").toList && (research maskedCardRegex message).isSome then
    true
  else false

/-- The full default method set of the abstract root, at a given bank
name (`get_currency` defaults to `"INR"`). -/
def defaults (bankName : List Char) : BankParserM where
  bankName := bankName
  currency := ("INR").toList
  is_transaction_message := is_transaction_message
  extract_amount := extract_amount
  extract_transaction_type := extract_transaction_type is_investment_transaction
  extract_merchant := extract_merchant clean_merchant_name is_valid_merchant_name
  extract_reference := extract_reference
  extract_account_last4 := extract_account_last4 isValidAccountLast4
  extract_balance := extract_balance
  extract_available_limit := extract_available_limit
  detect_is_card := detect_is_card

end BankParser

/-! ## mandate_info.py -/

/-- The field set of a `MandateInfo` implementation (the concrete
`GenericMandateInfo` of `base_indian_bank_parser.py`). -/
structure MandateInfo where
  amount : Rat
  nextDeductionDate : Option (List Char)
  merchant : List Char
  umn : Option (List Char)
deriving DecidableEq, Repr

/-! ## bank/base_indian_bank_parser.py -/

namespace BaseIndianBankParser

/-- `BaseIndianBankParser.is_investment_transaction` (receives the
lower-cased message). -/
def is_investment_transaction (lowerMessage : List Char) : Bool :=
  ["iccl", "indian clearing corporation", "nsccl", "nse clearing", "clearing corporation",
   "nach", "ach", "ecs",
   "groww", "zerodha", "upstox", "kite", "kuvera", "paytm money", "etmoney",
   "coin by zerodha", "smallcase", "angel one", "angel broking", "5paisa",
   "icici securities", "icici direct", "hdfc securities", "kotak securities",
   "motilal oswal", "sharekhan", "edelweiss", "axis direct", "sbi securities",
   "mutual fund", "sip", "elss", "ipo", "folio", "demat", "stockbroker",
   "digital gold", "sovereign gold", "nse", "bse", "cdsl", "nsdl"].any
    (fun kw => containsL lowerMessage kw.toList)

/-- `BaseIndianBankParser.is_e_mandate_notification`. -/
def is_e_mandate_notification (message : List Char) : Bool :=
  let lower := lowerL message
  containsL lower ("e-mandate").toList
  || containsL lower ("upi-mandate").toList
  || (containsL lower ("mandate").toList && containsL lower ("successfully created").toList)

/-- `BaseIndianBankParser.is_future_debit_notification`. -/
def is_future_debit_notification (message : List Char) : Bool :=
  let lower := lowerL message
  containsL lower ("will be debited").toList
  || containsL lower ("mandate set for").toList
  || (containsL lower ("upcoming").toList && containsL lower ("mandate").toList)

/-- `BaseIndianBankParser.parse_mandate_subscription`.

After the guard and the amount extraction succeed, the Python body
builds `merchant_patterns` with `re.compile(..., re.IGNORE_CASE)`;
the `re` module has no attribute `IGNORE_CASE` (the flag is spelled
`IGNORECASE`), so every such call raises `AttributeError` instead of
returning a `MandateInfo`.  The raise is modelled as `Except.error`. -/
def parse_mandate_subscription (message : List Char) :
    Except (List Char) (Option MandateInfo) :=
  if ¬ (is_e_mandate_notification message || is_future_debit_notification message) then
    .ok none
  else
    let amount? :=
      match research CompiledPatterns.Amount.INR_PATTERN message with
      | some m =>
        (match m.groupN message 1 with
         | some g => decimalOfGroup g
         | none => none)
      | none => none
    let amount? :=
      match amount? with
      | some a => some a
      | none =>
        match research CompiledPatterns.Amount.RS_PATTERN message with
        | some m =>
          (match m.groupN message 1 with
           | some g => decimalOfGroup g
           | none => none)
        | none => none
    match amount? with
    | none => .ok none
    | some _ =>
      .error ("AttributeError: module 're' has no attribute 'IGNORE_CASE'").toList

/-- The method record of the (abstract) South-Asian base: the root
defaults with `get_currency = "INR"` and its own investment keyword
set dispatched into the root kind extractor. -/
def methods (bankName : List Char) : BankParserM :=
  { BankParser.defaults bankName with
    currency := ("INR").toList
    extract_transaction_type := BankParser.extract_transaction_type is_investment_transaction }

end BaseIndianBankParser

/-! ## bank/sbi_bank_parser.py -/

namespace SBIBankParser

/-- `SBIBankParser.normalize_unicode_text`: NFKD-normalize, then keep
only code points below 128.  NFKD is the identity on ASCII, and every
string a claim evaluates this on is ASCII, so the model is the ASCII
filter alone. -/
def normalize_unicode_text (text : List Char) : List Char :=
  text.filter (fun c => c.toNat < 128)

/-- `SBIBankParser.can_handle`. -/
def can_handle (sender : List Char) : Bool :=
  let up := upperL sender
  if (["SBI", "SBIINB", "SBIUPI", "SBICRD", "ATMSBI", "SBI CARDS"].any
        (fun k => containsL up k.toList))
     || (["SBIBK", "SBIBNK"].any (fun s => up = s.toList)) then true
  else
    ["^[A-Z]\x7b2\x7d-SBIBK-S$", "^[A-Z]\x7b2\x7d-SBIBK-[TPG]$",
     "^[A-Z]\x7b2\x7d-SBIBK$", "^[A-Z]\x7b2\x7d-SBI$"].any
      (fun p => (rematch (reP p) up).isSome)

/-- `SBIBankParser.is_credit_card_message`. -/
def is_credit_card_message (sender message : List Char) : Bool :=
  let upS := upperL sender
  containsL upS ("SBICRD").toList
  || containsL upS ("SBI CARDS").toList
  || containsL (lowerL message) ("credit card").toList

/-- `SBIBankParser.extract_credit_card_last4`. -/
def extract_credit_card_last4 (message : List Char) : Option (List Char) :=
  let rec go : List Pattern → Option (List Char)
    | [] => none
    | p :: ps =>
      match research p message with
      | some m => m.groupN message 1
      | none => go ps
  go [reI "ending\\s+with\\s+(\\d\x7b4\x7d)", reI "ending\\s+(\\d\x7b4\x7d)"]

/-- `SBIBankParser.extract_credit_card_merchant`. -/
def extract_credit_card_merchant (message : List Char) : Option (List Char) :=
  match research (reI "at\\s+([A-Za-z0-9\\s&._-]+?)\\s+on\\s+\\d") message with
  | some m =>
    (match m.groupN message 1 with
     | some g =>
       let mer := BankParser.clean_merchant_name (stripL g)
       if BankParser.is_valid_merchant_name mer then some mer else none
     | none => none)
  | none => none

/-- `SBIBankParser.extract_available_limit` (falls back to the root
default). -/
def extract_available_limit (message : List Char) : Option Rat :=
  match BankParser.firstDecimalOf
      [reI "available\\s+limit\\s+is\\s+Rs\\.?\\s*([0-9,]+(?:\\.\\d\x7b2\x7d)?)",
       reI "Your\\s+available\\s+limit\\s+is\\s+Rs\\.?\\s*([0-9,]+(?:\\.\\d\x7b2\x7d)?)"]
      message with
  | some a => some a
  | none => BankParser.extract_available_limit message

/-- `SBIBankParser.extract_amount` (falls back to the root default). -/
def extract_amount (message : List Char) : Option Rat :=
  match BankParser.firstDecimalOf
      [reI "transaction\\s+number\\s+\\d+\\s+for\\s+Rs\\.?\\s*([0-9,]+(?:\\.\\d\x7b2\x7d)?)",
       reI "payment\\s+of\\s+Rs\\.?\\s*([0-9,]+(?:\\.\\d\x7b2\x7d)?)",
       reI "Rs\\.?\\s*([0-9,]+(?:\\.\\d\x7b2\x7d)?)\\s+spent",
       reI "debited\\s+by\\s+(\\d+(?:,\\d\x7b3\x7d)*(?:\\.\\d\x7b1,2\x7d)?)",
       reI "credited\\s+by\\s+Rs\\.?\\s*(\\d+(?:,\\d\x7b3\x7d)*(?:\\.\\d\x7b1,2\x7d)?)",
       reI "Rs\\.?\\s*(\\d+(?:,\\d\x7b3\x7d)*(?:\\.\\d\x7b2\x7d)?)\\s+(?:has\\s+been\\s+)?debited",
       reI "INR\\s*(\\d+(?:,\\d\x7b3\x7d)*(?:\\.\\d\x7b2\x7d)?)\\s+(?:has\\s+been\\s+)?debited",
       reI "Rs\\.?\\s*(\\d+(?:,\\d\x7b3\x7d)*(?:\\.\\d\x7b2\x7d)?)\\s+(?:has\\s+been\\s+)?credited",
       reI "INR\\s*(\\d+(?:,\\d\x7b3\x7d)*(?:\\.\\d\x7b2\x7d)?)\\s+(?:has\\s+been\\s+)?credited",
       reI "withdrawn\\s+Rs\\.?\\s*(\\d+(?:,\\d\x7b3\x7d)*(?:\\.\\d\x7b2\x7d)?)",
       reI "transferred\\s+Rs\\.?\\s*(\\d+(?:,\\d\x7b3\x7d)*(?:\\.\\d\x7b2\x7d)?)",
       reI "paid\\s+to\\s+[\\w.-]+@[\\w]+\\s+Rs\\.?\\s*(\\d+(?:,\\d\x7b3\x7d)*(?:\\.\\d\x7b2\x7d)?)",
       reI "ATM\\s+withdrawal\\s+of\\s+Rs\\.?\\s*(\\d+(?:,\\d\x7b3\x7d)*(?:\\.\\d\x7b2\x7d)?)",
       reI "Yono\\s+Cash\\s+Rs\\.?\\s*(\\d+(?:,\\d\x7b3\x7d)*(?:\\.\\d\x7b2\x7d)?)"]
      message with
  | some a => some a
  | none => BankParser.extract_amount message

/-- `SBIBankParser.extract_transaction_type` (falls back through the
South-Asian base to the root default). -/
def extract_transaction_type (message : List Char) : Option TransactionType :=
  let low := lowerL message
  if containsL low ("withdrawn").toList || containsL low ("transferred").toList
     || containsL low ("paid to").toList || containsL low ("atm withdrawal").toList
     || containsL low ("by sbi debit card").toList then
    some .EXPENSE
  else
    BankParser.extract_transaction_type BaseIndianBankParser.is_investment_transaction message

/-- One step of `SBIBankParser.extract_merchant`: clean, validate,
return. -/
def cleanedValidGroup (message : List Char) (p : Pattern) : Option (List Char) :=
  match research p message with
  | some m =>
    (match m.groupN message 1 with
     | some g =>
       let mer := BankParser.clean_merchant_name (stripL g)
       if BankParser.is_valid_merchant_name mer then some mer else none
     | none => none)
  | none => none

/-- Step `m7` and the `super()` fallback of
`SBIBankParser.extract_merchant`. -/
def extractMerchantTail (message sender : List Char) : Option (List Char) :=
  match cleanedValidGroup message
      (reI "(?:NEFT|IMPS|RTGS)[^:]*:\\s*([^.\\n]+?)(?:\\s+Ref|\\s+on|$)") with
  | some r => some r
  | none =>
    BankParser.extract_merchant BankParser.clean_merchant_name
      BankParser.is_valid_merchant_name message sender

/-- Steps `m5`–`m7` and the `super()` fallback of
`SBIBankParser.extract_merchant`. -/
def extractMerchantRest (message sender : List Char) : Option (List Char) :=
  match research (reI "w/d@SBI\\s+ATM\\s+([A-Z0-9]+)") message with
  | some m5 =>
    (match m5.groupN message 1 with
     | some g => some (("YONO Cash ATM - ").toList ++ g)
     | none => none)
  | none =>
  match research (reI "ATM\\s+(?:withdrawal\\s+)?(?:at\\s+)?([^.\\n]+?)(?:\\s+on|\\s+Avl)") message with
  | some m6 =>
    (match m6.groupN message 1 with
     | some g =>
       let loc := BankParser.clean_merchant_name g
       if BankParser.is_valid_merchant_name loc then some (("ATM - ").toList ++ loc)
       else extractMerchantTail message sender
     | none => extractMerchantTail message sender)
  | none => extractMerchantTail message sender

/-- `SBIBankParser.extract_merchant` (falls back to the root
default). -/
def extract_merchant (message sender : List Char) : Option (List Char) :=
  match cleanedValidGroup message (reI "done\\s+at\\s+([^.\\n]+?)(?:\\s+on\\s+|$)") with
  | some r => some r
  | none =>
  match cleanedValidGroup message (reI "trf\\s+to\\s+([^.\\n]+?)(?:\\s+Ref|\\s+ref|$)") with
  | some r => some r
  | none =>
  match cleanedValidGroup message (reI "transfer\\s+from\\s+([^.\\n]+?)(?:\\s+Ref|\\s+ref|$)") with
  | some r => some r
  | none =>
  match research (reI "paid\\s+to\\s+([\\w.-]+)@[\\w]+") message with
  | some m4 =>
    (match m4.groupN message 1 with
     | some g =>
       let mer := BankParser.clean_merchant_name g
       if BankParser.is_valid_merchant_name mer then some mer
       else extractMerchantRest message sender
     | none => extractMerchantRest message sender)
  | none => extractMerchantRest message sender

/-- `SBIBankParser.extract_account_last4` (falls back to the root
default). -/
def extract_account_last4 (message : List Char) : Option (List Char) :=
  match research (reI "by\\s+SBI\\s+Debit\\s+Card\\s+([\\w\\-]+)") message with
  | some m1 =>
    (match m1.groupN message 1 with
     | some inf =>
       if (rematch (reP "^\\d\x7b4\x7d$") inf).isSome then some inf
       else
         let dig := inf.filter Char.isDigit
         if 4 ≤ dig.length then some (dig.drop (dig.length - 4)) else some inf
     | none => none)
  | none =>
  match research (reI "A/c\\s+([X\\*]*\\d+)") message with
  | some m2 =>
    (match m2.groupN message 1 with
     | some g =>
       let dig := g.filter Char.isDigit
       if 4 ≤ dig.length then some (dig.drop (dig.length - 4)) else some dig
     | none => none)
  | none =>
  match research (reI "A/c\\s+ending\\s+(\\d\x7b4\x7d)") message with
  | some m3 => m3.groupN message 1
  | none =>
  match research (reI "a/c\\s+no\\.?\\s+(?:XX|X\\*+)?(\\d\x7b4\x7d)") message with
  | some m4 => m4.groupN message 1
  | none => BankParser.extract_account_last4 BankParser.isValidAccountLast4 message

/-- `SBIBankParser.extract_balance` (falls back to the root default). -/
def extract_balance (message : List Char) : Option Rat :=
  match BankParser.firstDecimalOf
      [reI "Your\\s+updated\\s+available\\s+balance\\s+is\\s+Rs\\.?\\s*(\\d+(?:,\\d\x7b3\x7d)*(?:\\.\\d\x7b2\x7d)?)",
       reI "Avl\\s+Bal\\s+Rs\\.?\\s*(\\d+(?:,\\d\x7b3\x7d)*(?:\\.\\d\x7b2\x7d)?)",
       reI "Available\\s+Balance:?\\s+Rs\\.?\\s*(\\d+(?:,\\d\x7b3\x7d)*(?:\\.\\d\x7b2\x7d)?)",
       reI "Bal:?\\s+Rs\\.?\\s*(\\d+(?:,\\d\x7b3\x7d)*(?:\\.\\d\x7b2\x7d)?)"]
      message with
  | some a => some a
  | none => BankParser.extract_balance message

/-- `SBIBankParser.extract_reference` (falls back to the root
default). -/
def extract_reference (message : List Char) : Option (List Char) :=
  let rec go : List Pattern → Option (List Char)
    | [] => BankParser.extract_reference message
    | p :: ps =>
      match research p message with
      | some m =>
        (match m.groupN message 1 with
         | some g => some g
         | none => go ps)
      | none => go ps
  go [reI "transaction\\s+number\\s+([\\w\\-]+)",
      reI "Ref\\s+No\\.?\\s*(\\w+)",
      reI "Txn#\\s*(\\w+)",
      reI "transaction\\s+ID:?\\s*(\\w+)"]

/-- `SBIBankParser.is_emi_mandate_notification`. -/
def is_emi_mandate_notification (message : List Char) : Bool :=
  let low := lowerL message
  containsL low ("e-mandate").toList || containsL low ("e mandate").toList

/-- `SBIBankParser.is_upi_mandate_notification`. -/
def is_upi_mandate_notification (message : List Char) : Bool :=
  let low := lowerL message
  containsL low ("upi-mandate").toList || containsL low ("upi mandate").toList
  || (containsL low ("mandate").toList && containsL low ("created").toList
      && containsL low ("upi").toList)

/-- `SBIBankParser.is_transaction_message`. -/
def is_transaction_message (message : List Char) : Bool :=
  let norm := normalize_unicode_text message
  let low := lowerL norm
  if containsL low ("e-statement of sbi credit card").toList then false
  else if containsL low ("is due for").toList then false
  else if ["sbi card application", "process your app.no",
           "track your application status"].any (fun k => containsL low k.toList) then false
  else if is_emi_mandate_notification norm || is_upi_mandate_notification norm then false
  else if containsL low ("by sbi debit card").toList then true
  else if containsL low ("spent").toList && containsL low ("credit card").toList then true
  else BankParser.is_transaction_message norm

/-- The method record the inherited `BankParser.parse` dispatches to
for an `SBIBankParser` object. -/
def methods : BankParserM where
  bankName := ("State Bank of India").toList
  currency := ("INR").toList
  is_transaction_message := is_transaction_message
  extract_amount := extract_amount
  extract_transaction_type := extract_transaction_type
  extract_merchant := extract_merchant
  extract_reference := extract_reference
  extract_account_last4 := extract_account_last4
  extract_balance := extract_balance
  extract_available_limit := extract_available_limit
  detect_is_card := BankParser.detect_is_card

/-- The `AttributeError` text raised by reading a missing attribute of
`ParsedTransaction`. -/
def attrError (name : String) : List Char :=
  ("AttributeError: 'ParsedTransaction' object has no attribute '" ++ name ++ "'").toList

/-- `SBIBankParser.parse`.

The credit-card branch is faithful to three Python slips:
* `self.extract_credit_card_last4(norm) or parsed.accountLast4`
  reads the attribute `accountLast4`, which does not exist (the
  constructor sets `account_last4`), so when the left operand is
  `None` the call raises `AttributeError` (modelled as
  `Except.error`); likewise `parsed.creditLimit` when the extracted
  limit is `None` or zero (`Decimal(0)` is falsy);
* the assignments `parsed.accountLast4 = …`, `parsed.creditLimit = …`
  and `parsed.isFromCard = True` create fresh attributes and leave the
  record fields `account_last4`, `credit_limit` and `is_from_card`
  read by every consumer unchanged, so they are dead writes here;
* `parsed.type = tt` and `parsed.merchant = …` do update the real
  fields. -/
def parse (smsBody sender : List Char) (timestamp : Int) :
    Except (List Char) (Option ParsedTransaction) :=
  let norm := normalize_unicode_text smsBody
  match BankParser.parse methods norm sender timestamp with
  | none => .ok none
  | some parsed =>
    if is_credit_card_message sender norm then
      match extract_credit_card_last4 norm with
      | none => .error (attrError "accountLast4")
      | some _cardLast4 =>
        match extract_available_limit norm with
        | none => .error (attrError "creditLimit")
        | some limit =>
          if limit = 0 then .error (attrError "creditLimit")
          else
            let low := lowerL norm
            let tt :=
              if containsL low ("payment of").toList
                 && containsL low ("credited to your sbi credit card").toList then
                TransactionType.INCOME
              else if containsL low ("spent on").toList || containsL low ("spent").toList then
                TransactionType.CREDIT
              else TransactionType.CREDIT
            let mer :=
              if containsL low ("via bbps").toList then some (("BBPS Payment").toList)
              else
                match extract_credit_card_merchant norm with
                | some m => some m
                | none => parsed.merchant
            let mer2 :=
              match mer with
              | some m => some m
              | none => parsed.merchant
            .ok (some { parsed with type := tt, merchant := mer2 })
    else .ok (some parsed)

end SBIBankParser

/-! ## bank/uae_bank_parser.py -/

namespace UAEBankParser

/-- `re.finditer`: all non-overlapping matches, left to right. -/
def finditerGo (p : Pattern) : Nat → List Char → Nat → Option Char → List ReMatch
  | 0, _, _, _ => []
  | fuel + 1, s, pos, prev =>
    match searchFrom p s pos prev with
    | none => []
    | some m =>
      if m.stop ≤ m.start then
        m ::
          (match s.drop (m.start - pos) with
           | [] => []
           | c :: rs => finditerGo p fuel rs (m.start + 1) (some c))
      else
        let skip := m.stop - pos
        m :: finditerGo p fuel (s.drop skip) m.stop ((s.take skip).getLast?)

/-- `re.finditer(p, message)`. -/
def finditer (p : Pattern) (s : List Char) : List ReMatch :=
  finditerGo p (s.length + 1) s 0 none

/-- `UAEBankParser.is_month_abbreviation`. -/
def is_month_abbreviation (code : List Char) : Bool :=
  ["JAN", "FEB", "MAR", "APR", "MAY", "JUN",
   "JUL", "AUG", "SEP", "OCT", "NOV", "DEC"].any (fun m => m.toList = code)

/-- `UAEBankParser.contains_card_purchase`. -/
def contains_card_purchase (message : List Char) : Bool :=
  containsL message ("Credit Card Purchase").toList
  || containsL message ("Debit Card Purchase").toList
  || containsL (lowerL message) ("credit card purchase").toList
  || containsL (lowerL message) ("debit card purchase").toList

/-- The inner group check of `UAEBankParser.extract_currency`: first
match in the list whose (single) group is a 3-letter alphabetic,
non-month code. -/
def firstCodeInMatches (message : List Char) : List ReMatch → Option (List Char)
  | [] => none
  | m :: ms =>
    match m.groupN message 1 with
    | some g =>
      if g ≠ [] then
        if (upperL g).length = 3 && (upperL g).all Char.isAlpha
            && !is_month_abbreviation (upperL g) then some (upperL g)
        else firstCodeInMatches message ms
      else firstCodeInMatches message ms
    | none => firstCodeInMatches message ms

/-- The explicit pattern list of `UAEBankParser.extract_currency`. -/
def currencyPatterns : List Pattern :=
  [reI "Amount\\s+([A-Z]\x7b3\x7d)",
   reI "\\b([A-Z]\x7b3\x7d)\\s+[0-9,]+(?:\\.\\d\x7b2\x7d)?",
   reI "for\\s+([A-Z]\x7b3\x7d)\\s+[0-9,]+(?:\\.\\d\x7b2\x7d)?",
   reI "of\\s+([A-Z]\x7b3\x7d)\\s+[0-9,]+(?:\\.\\d\x7b2\x7d)?",
   reI "[A-Z]\x7b3\x7d\\s+([A-Z]\x7b3\x7d)"]

/-- The pattern loop of `UAEBankParser.extract_currency`, ending in
its final fallback search. -/
def currencyPatternLoop (message : List Char) : List Pattern → Option (List Char)
  | [] =>
    match research (reI "\\b([A-Z]\x7b3\x7d)\\s+\\d") message with
    | some m =>
      (match m.groupN message 1 with
       | some g =>
         if !is_month_abbreviation (upperL g) then some (upperL g) else none
       | none => none)
    | none => none
  | p :: ps =>
    match firstCodeInMatches message (finditer p message) with
    | some code => some code
    | none => currencyPatternLoop message ps

/-- `UAEBankParser.extract_currency`. -/
def extract_currency (message : List Char) : Option (List Char) :=
  currencyPatternLoop message currencyPatterns

/-- The multi-currency pattern list of `UAEBankParser.extract_amount`
(the 3-letter ISO code is group 1, the amount group 2). -/
def multiCurrencyAmountPatterns : List Pattern :=
  [reI "(?:purchase of|transfer of|amount|for|of)\\s+([A-Z]\x7b3\x7d)\\s+([0-9,]+(?:\\.\\d\x7b2\x7d)?)",
   reI "([A-Z]\x7b3\x7d)\\s+([0-9,]+(?:\\.\\d\x7b2\x7d)?)",
   reI "([A-Z]\x7b3\x7d)\\s+\\*+([0-9,]+(?:\\.\\d\x7b2\x7d)?)"]

/-- One iteration of the pattern loop of
`UAEBankParser.extract_amount`: `none` means the loop moves on to the
next pattern — on no match, on a code group that is a month
abbreviation (the `continue`), on a masked amount emptied by
stripping, and on a failed `Decimal`. -/
def multiAmountStep (message : List Char) (p : Pattern) : Option Rat :=
  match research p message with
  | some m =>
    (match m.groupN message 1, m.groupN message 2 with
     | some g1, some g2 =>
       if is_month_abbreviation (upperL g1) then none
       else
         if (g2.filter (fun c => c ≠ ',')).contains '*' then
           if (g2.filter (fun c => c ≠ ',')).filter (fun c => c ≠ '*') = []
               ∨ (g2.filter (fun c => c ≠ ',')).filter (fun c => c ≠ '*') = ['.'] then none
           else
             match parseDecimal ((g2.filter (fun c => c ≠ ',')).filter (fun c => c ≠ '*')) with
             | some a => some a
             | none => none
         else
           match parseDecimal (g2.filter (fun c => c ≠ ',')) with
           | some a => some a
           | none => none
     | _, _ => none)
  | none => none

/-- The pattern loop of `UAEBankParser.extract_amount`: first pattern
whose iteration returns a value. -/
def multiAmountLoop (message : List Char) : List Pattern → Option Rat
  | [] => none
  | p :: ps =>
    match multiAmountStep message p with
    | some a => some a
    | none => multiAmountLoop message ps

/-- The multi-currency extraction stage of
`UAEBankParser.extract_amount`. -/
def multiCurrencyAmount (message : List Char) : Option Rat :=
  multiAmountLoop message multiCurrencyAmountPatterns

/-- `UAEBankParser.extract_amount` (falls back to the root default). -/
def extract_amount (message : List Char) : Option Rat :=
  match multiCurrencyAmount message with
  | some a => some a
  | none => BankParser.extract_amount message

/-- `UAEBankParser.extract_transaction_type` (falls back to the root
default). -/
def extract_transaction_type (message : List Char) : Option TransactionType :=
  let low := lowerL message
  if containsL low ("credit card purchase").toList then some .CREDIT
  else if contains_card_purchase message then some .EXPENSE
  else if containsL low ("cheque credited").toList then some .INCOME
  else if containsL low ("cheque returned").toList then some .EXPENSE
  else if containsL low ("atm cash withdrawal").toList
          || (containsL low ("atm").toList && containsL low ("withdrawn").toList) then
    some .EXPENSE
  else if containsL low ("inward remittance").toList || containsL low ("cash deposit").toList
          || containsL low ("has been credited").toList || containsL low ("is credited").toList then
    some .INCOME
  else if containsL low ("outward remittance").toList
          || containsL low ("payment instructions").toList then some .EXPENSE
  else if containsL low ("funds transfer request").toList then some .TRANSFER
  else if containsL low ("has been processed").toList then some .EXPENSE
  else if containsL low ("credit").toList && !containsL low ("credit card").toList
          && !containsL low ("debit").toList && !containsL low ("purchase").toList
          && !containsL low ("payment").toList then some .INCOME
  else if containsL low ("debit").toList && !containsL low ("credit").toList then some .EXPENSE
  else if containsL low ("purchase").toList then some .EXPENSE
  else if containsL low ("payment").toList then some .EXPENSE
  else BankParser.extract_transaction_type BankParser.is_investment_transaction message

/-- The method record the inherited `BankParser.parse` dispatches to
for a `UAEBankParser` object with the default currency methods
(`get_currency = "AED"`). -/
def methods (bankName : List Char) : BankParserM :=
  { BankParser.defaults bankName with
    currency := ("AED").toList
    extract_amount := extract_amount
    extract_transaction_type := extract_transaction_type }

/-- `UAEBankParser.parse`: the base pipeline, then the currency
override from an explicit in-message code. -/
def parse (bankName : List Char) (smsBody sender : List Char) (timestamp : Int) :
    Option ParsedTransaction :=
  match BankParser.parse (methods bankName) smsBody sender timestamp with
  | none => none
  | some transaction =>
    match extract_currency smsBody with
    | some extracted => some { transaction with currency := extracted }
    | none => some transaction

end UAEBankParser

/-! ## bank/base_iranian_bank_parser.py -/

namespace BaseIranianBankParser

/-- The pattern loop of `BaseIranianBankParser.extract_amount`: on a
successful numeric match the value is returned only when it is at
least 1000, otherwise the whole extraction yields `None` immediately
(the `return` leaves the loop). -/
def iranianAmountLoop (message : List Char) : List Pattern → Option Rat
  | [] => none
  | p :: ps =>
    match research p message with
    | some m =>
      (match m.groupN message 1 with
       | some g =>
         match parseDecimal (g.filter (fun c => c ≠ ',')) with
         | some amount => if 1000 ≤ amount then some amount else none
         | none => iranianAmountLoop message ps
       | none => iranianAmountLoop message ps)
    | none => iranianAmountLoop message ps

/-- `BaseIranianBankParser.extract_amount`. -/
def extract_amount (message : List Char) : Option Rat :=
  iranianAmountLoop message
    [reP "مبلغ\\s*(\\d\x7b1,3\x7d(?:,\\d\x7b3\x7d)*|\\d+)\\s*(?:ریال|تومان)",
     reP "(\\d\x7b1,3\x7d(?:,\\d\x7b3\x7d)*|\\d+)\\s*(?:ریال|تومان)"]

/-- `BaseIranianBankParser.extract_transaction_type`. -/
def extract_transaction_type (message : List Char) : Option TransactionType :=
  let lower := lowerL message
  if BankParser.is_investment_transaction lower then some .INVESTMENT
  else if ["برداشت", "پرداخت", "خرید", "انتقال", "مصرف"].any
      (fun kw => containsL lower kw.toList) then some .EXPENSE
  else if containsL lower ("واریز").toList
          || (containsL lower ("credited").toList && !containsL lower ("block").toList) then
    some .INCOME
  else none

/-- `BaseIranianBankParser.extract_merchant` (the `sender` argument is
unused). -/
def extract_merchant (message : List Char) (_sender : List Char) : Option (List Char) :=
  match research (reP "(\\d\x7b4\x7d[-\\s]?\\d\x7b4\x7d[-\\s]?\\d\x7b4\x7d[-\\s]?\\d\x7b4\x7d)") message with
  | some m =>
    (match m.groupN message 1 with
     | some g => some (("Card ").toList ++ g)
     | none => none)
  | none => none

/-- `BaseIranianBankParser.extract_account_last4`. -/
def extract_account_last4 (message : List Char) : Option (List Char) :=
  match research (reP "\\d\x7b4\x7d[-\\s]?(\\d\x7b4\x7d)") message with
  | some m => m.groupN message 1
  | none => none

/-- `BaseIranianBankParser.extract_balance`. -/
def extract_balance (message : List Char) : Option Rat :=
  match research (reP "مانده\\s*:?\\s*(\\d\x7b1,3\x7d(?:,\\d\x7b3\x7d)*)") message with
  | some m =>
    (match m.groupN message 1 with
     | some g => parseDecimal (g.filter (fun c => c ≠ ','))
     | none => none)
  | none => none

/-- `BaseIranianBankParser.detect_is_card`. -/
def detect_is_card (message : List Char) : Bool :=
  ["کارت", "card", "debit card", "credit card", "کارت بدهی", "کارت اعتباری"].any
    (fun kw => containsL (lowerL message) kw.toList)

/-- `BaseIranianBankParser.is_transaction_message`. -/
def is_transaction_message (message : List Char) : Bool :=
  let lower := lowerL message
  if ["otp", "رمز یکبار مصرف", "کد تایید"].any (fun kw => containsL lower kw.toList) then false
  else if ["تبلیغ", "پیشنهاد", "تخفیف", "cashback offer"].any
      (fun kw => containsL lower kw.toList) then false
  else if containsL lower ("درخواست").toList && containsL lower ("پرداخت").toList then false
  else
    ["مبلغ", "ریال", "تومان", "IRR", "TOMAN", "برداشت", "واریز", "پرداخت", "خرید",
     "انتقال", "debit", "credit", "spent", "received", "transferred", "paid"].any
      (fun kw => containsL lower kw.toList)

/-- The method record the inherited `BankParser.parse` dispatches to
for a `BaseIranianBankParser` object (`get_currency = "IRR"`;
`extract_reference` always returns `None`). -/
def methods (bankName : List Char) : BankParserM :=
  { BankParser.defaults bankName with
    currency := ("IRR").toList
    is_transaction_message := is_transaction_message
    extract_amount := extract_amount
    extract_transaction_type := extract_transaction_type
    extract_merchant := extract_merchant
    extract_reference := fun _ => none
    extract_account_last4 := extract_account_last4
    extract_balance := extract_balance
    detect_is_card := detect_is_card }

end BaseIranianBankParser

/-! ## bank/hdfc_bank_parser.py (the classification fragment) -/

namespace HDFCBankParser

/-- `HDFCBankParser.can_handle`. -/
def can_handle (sender : List Char) : Bool :=
  let up := upperL sender
  if ["HDFCBK", "HDFCBANK", "HDFC", "HDFCB"].any (fun s => up = s.toList) then true
  else CompiledPatterns.HDFC.DLT_PATTERNS.any (fun p => (rematch p up).isSome)

/-- `HDFCBankParser.is_transaction_message`. -/
def is_transaction_message (message : List Char) : Bool :=
  if BaseIndianBankParser.is_e_mandate_notification message then false
  else if BaseIndianBankParser.is_future_debit_notification message then false
  else
    let low := lowerL message
    if containsL low ("bill alert").toList
       || (containsL low ("bill").toList && containsL low ("is due on").toList) then false
    else if containsL low ("payment alert").toList && !containsL low ("will be").toList then true
    else if ["has requested", "payment request", "to pay, download",
             "collect request", "ignore if already paid"].any
        (fun kw => containsL low kw.toList) then false
    else if containsL low ("received towards your credit card").toList then false
    else if containsL low ("payment").toList
            && containsL low ("credited to your card").toList then false
    else if ["otp", "one time password", "verification code", "offer",
             "discount", "cashback offer", "win "].any
        (fun kw => containsL low kw.toList) then false
    else
      ["debited", "credited", "withdrawn", "deposited", "spent", "received",
       "transferred", "paid", "sent", "deducted", "txn"].any
        (fun kw => containsL low kw.toList)

end HDFCBankParser

/-! ## bank/bank_parser_registry.py and bank/bank_parser_factory.py -/

/-- A registered parser, reduced to what dispatch inspects: its
sender predicate, plus a tag distinguishing it in statements. -/
structure RegisteredParser where
  tag : Nat
  can_handle : List Char → Bool

namespace BankParserRegistry

/-- `BankParserRegistry.getParser`: the first parser in the ordered
list whose `can_handle(sender)` is true. -/
def getParser (parsers : List RegisteredParser) (sender : List Char) :
    Option RegisteredParser :=
  match parsers with
  | [] => none
  | p :: ps => if p.can_handle sender then some p else getParser ps sender

end BankParserRegistry

namespace BankParserFactory

/-- `BankParserFactory.getParser`: the identical first-match loop over
the class-level `_parsers` list (passed here as the argument that the
fixed catalog instantiates). -/
def getParser (parsers : List RegisteredParser) (sender : List Char) :
    Option RegisteredParser :=
  match parsers with
  | [] => none
  | p :: ps => if p.can_handle sender then some p else getParser ps sender

end BankParserFactory

/-! ## parsed_transaction.py — identity hashing -/

/-- `Decimal.quantize(Decimal("0.00"), rounding=ROUND_HALF_UP)`:
round to 2 decimal places, ties away from zero. -/
def quantize2 (a : Rat) : Rat :=
  if 0 ≤ a then ((⌊a * 100 + 1 / 2⌋ : Int) : Rat) / 100
  else -((((⌊-a * 100 + 1 / 2⌋ : Int)) : Rat) / 100)

/-- `str()` of a two-decimal quantized `Decimal` (the interpolation
`f"{normalized_amount}"`). -/
def decimalToString2 (q : Rat) : List Char :=
  let n : Int := ⌊q * 100⌋
  let sign : List Char := if n < 0 then ['-'] else []
  let m := n.natAbs
  sign ++ (Nat.repr (m / 100)).toList ++ '.' ::
    (if m % 100 < 10 then '0' :: (Nat.repr (m % 100)).toList else (Nat.repr (m % 100)).toList)

/-- `ParsedTransaction.generate_transaction_id`.  `hashlib.md5(x)
.hexdigest()` is modelled by the parameter `md5hex`: the property of
interest (which fields determine the identity) is independent of the
hash function's definition, and the claim is proved for every
`md5hex`. -/
def generate_transaction_id (md5hex : List Char → List Char)
    (t : ParsedTransaction) : List Char :=
  let normalizedAmount := quantize2 t.amount
  let smsBodyHash := (md5hex t.smsBody).take 16
  md5hex (t.sender ++ '|' :: decimalToString2 normalizedAmount ++ '|' :: smsBodyHash)

/-! ## Projections and concrete inputs used in the statements -/

/-- The payload of a normal return (`none` when an exception was
raised). -/
def exceptOk? {ε α : Type} : Except ε α → Option α
  | .error _ => none
  | .ok v => some v

/-- The raised exception (`none` when the call returned normally). -/
def exceptErr? {ε α : Type} : Except ε α → Option ε
  | .error e => some e
  | .ok _ => none

/-- The spec's worked end-to-end example input. -/
def sbiExampleBody : List Char :=
  ("Rs.1,234.56 debited from A/c XX4321 on 05-01-24 to AMAZON. Avl Bal Rs.9,876.54").toList

/-- The spec's worked end-to-end example sender. -/
def sbiExampleSender : List Char := ("XX-SBIBNK-S").toList

/-- A message containing `RRN 123456789012` and `on 12/05/2099` in
which an earlier reference number shadows the quoted RRN in the
guard's first-match check. -/
def rrnShadowMsg : List Char :=
  ("RRN 88888888 paid A/c 2345 RRN 123456789012 on 12/05/2099 debited").toList

/-- A message containing `RRN 123456789012` and `on 12/05/2099` whose
account tail is unrelated to both. -/
def rrnPlainMsg : List Char :=
  ("RRN 123456789012 on 12/05/2099 A/c 7777 debited").toList

/-- The first entry of `datePatterns` at candidate `"2099"`: one or
two digits, a slash-or-dash separator, one or two digits, a separator,
then the literal `2099`. -/
def dp2099 : Pattern :=
  ⟨.cat (compileRE "\\d\x7b1,2\x7d[/-]\\d\x7b1,2\x7d[/-]") (litsRE (("2099").toList)), false⟩

/-- The spec's mandate-exclusion example message. -/
def mandateMsg : List Char :=
  ("An e-mandate of Rs 499 towards Netflix will be debited on 05-Jan").toList

/-- The spec's marketing classification-precision example. -/
def marketingBody1 : List Char :=
  ("You are pre-approved for a credit card with limit up to Rs 5,00,000, apply now").toList

/-- The spec's HDFC rejection example body. -/
def marketingBody2 : List Char :=
  ("Congratulations! You are eligible for a pre-approved personal loan up to Rs 2,00,000. Apply now!").toList

/-- The spec's HDFC rejection example sender. -/
def marketingSender2 : List Char := ("XX-HDFCBK-P").toList

/-- The transaction-verb list of `BankParser.is_transaction_message`. -/
def transactionKeywords : List (List Char) :=
  [("debited").toList, ("credited").toList, ("withdrawn").toList, ("deposited").toList,
   ("spent").toList, ("received").toList, ("transferred").toList, ("paid").toList]

/-- An SBI credit-card charge naming explicit account vocabulary, so
that `detect_is_card` reports `false` while the credit-card branch
sets the kind to `CREDIT`. -/
def sbiCardMsg : List Char :=
  ("Rs.100 spent on your SBI credit card ending 5678 at AMAZON from A/c XX1234. Your available limit is Rs.5000").toList

/-- A Gulf message with an in-message currency code and a month
abbreviation. -/
def uaeWitnessMsg : List Char :=
  ("Credit Card Purchase AED 100 paid from A/c 1234 on 05 JAN").toList

/-- An Iranian rial message whose matched amount is below 1000. -/
def iranianSmallMsg : List Char :=
  ("مبلغ 500 ریال از کارت شما برداشت شد").toList

/-- An Iranian rial message whose matched amount is at least 1000. -/
def iranianLargeMsg : List Char :=
  ("مبلغ 5,000 ریال از کارت شما برداشت شد").toList

/-- The fields of the worked examples' expected transactions, grouped
for concise statements. -/
structure ExtractedView where
  amount : Rat
  type : TransactionType
  accountLast4 : Option (List Char)
  balance : Option Rat
  currency : List Char
  merchant : Option (List Char)
deriving DecidableEq, Repr

/-- Project a transaction onto the fields the worked examples
specify. -/
def ParsedTransaction.view (t : ParsedTransaction) : ExtractedView :=
  ⟨t.amount, t.type, t.accountLast4, t.balance, t.currency, t.merchant⟩

/-- A pipeline method record used to exhibit the short-circuit
characterization at a concrete input. -/
def pipelineDemoMethods : BankParserM where
  bankName := ("Demo Bank").toList
  currency := ("INR").toList
  is_transaction_message := fun body => containsL (lowerL body) (("debited").toList)
  extract_amount := fun body => BankParser.extract_amount body
  extract_transaction_type := fun body =>
    BankParser.extract_transaction_type BankParser.is_investment_transaction body
  extract_merchant := fun _ _ => none
  extract_reference := fun _ => none
  extract_account_last4 := fun _ => none
  extract_balance := fun _ => none
  extract_available_limit := fun _ => none
  detect_is_card := fun _ => false

/-- A method record that classifies with the HDFC classifier (the
other methods are the root defaults; the rejection theorem holds for
every record sharing this classifier). -/
def hdfcClassifyMethods : BankParserM :=
  { BankParser.defaults (("HDFC Bank").toList) with
    is_transaction_message := HDFCBankParser.is_transaction_message }

/-- Two demo parsers whose sender predicates overlap, to exhibit
order-sensitive dispatch. -/
def demoParserA : RegisteredParser :=
  ⟨0, fun sender => containsL sender (("SBI").toList)⟩

/-- Second demo parser; also accepts any sender containing `SBIBNK`. -/
def demoParserB : RegisteredParser :=
  ⟨1, fun sender => containsL sender (("SBIBNK").toList)⟩

/-- The transaction the Gulf base produces for `uaeWitnessMsg`. -/
def uaeWitnessTxn : ParsedTransaction where
  amount := 100
  type := TransactionType.CREDIT
  merchant := some (("A/c 1234").toList)
  reference := none
  accountLast4 := some (("1234").toList)
  balance := none
  creditLimit := none
  smsBody := uaeWitnessMsg
  sender := ("GULF").toList
  timestamp := 0
  bankName := ("Gulf Bank").toList
  isFromCard := false
  currency := ("AED").toList

/-- The transaction the root defaults produce for `Rs.5 debited`. -/
def demoRootTxn : ParsedTransaction where
  amount := 5
  type := TransactionType.EXPENSE
  merchant := none
  reference := none
  accountLast4 := none
  balance := none
  creditLimit := none
  smsBody := ("Rs.5 debited").toList
  sender := ("S").toList
  timestamp := 0
  bankName := ("X").toList
  isFromCard := false
  currency := ("INR").toList

/-- A demo transaction for the identity-hash instance. -/
def identityDemoTxn1 : ParsedTransaction where
  amount := 5
  type := TransactionType.EXPENSE
  merchant := some (("AMAZON").toList)
  reference := some (("REF111").toList)
  accountLast4 := some (("4321").toList)
  balance := some 100
  creditLimit := none
  smsBody := ("Rs.5 debited").toList
  sender := ("XX-SBIBNK-S").toList
  timestamp := 1
  bankName := ("State Bank of India").toList
  isFromCard := false
  currency := ("INR").toList

/-- The same sender, body and amount as `identityDemoTxn1`, every
other extracted field different. -/
def identityDemoTxn2 : ParsedTransaction where
  amount := 5
  type := TransactionType.INCOME
  merchant := some (("FLIPKART").toList)
  reference := none
  accountLast4 := none
  balance := none
  creditLimit := some 7
  smsBody := ("Rs.5 debited").toList
  sender := ("XX-SBIBNK-S").toList
  timestamp := 99
  bankName := ("Some Other Bank").toList
  isFromCard := true
  currency := ("USD").toList

/-! # Theorems -/

/-- C1: `BankParser.parse` reports a binary outcome: it returns `none`
exactly when classification rejects, no amount is extracted, or no
kind is resolved (so partial extraction is indistinguishable from
"not a transaction"), and any returned transaction is fully
constructed from the pipeline's extractors, with the available limit
pulled only for a card charge. -/
theorem parse_binary_outcome (p : BankParserM) (body sender : List Char) (ts : Int) :
    (BankParser.parse p body sender ts = none ↔
      (p.is_transaction_message body = false ∨ p.extract_amount body = none
        ∨ p.extract_transaction_type body = none))
    ∧ (∀ tx, BankParser.parse p body sender ts = some tx →
        p.is_transaction_message body = true
        ∧ p.extract_amount body = some tx.amount
        ∧ p.extract_transaction_type body = some tx.type
        ∧ tx.merchant = p.extract_merchant body sender
        ∧ tx.reference = p.extract_reference body
        ∧ tx.accountLast4 = p.extract_account_last4 body
        ∧ tx.balance = p.extract_balance body
        ∧ tx.creditLimit =
            (if tx.type = TransactionType.CREDIT then p.extract_available_limit body else none)
        ∧ tx.smsBody = body ∧ tx.sender = sender ∧ tx.timestamp = ts
        ∧ tx.bankName = p.bankName
        ∧ tx.isFromCard = p.detect_is_card body
        ∧ tx.currency = p.currency) := by
  cases hC : p.is_transaction_message body with
  | false =>
    refine ⟨by simp [BankParser.parse, hC], ?_⟩
    intro tx htx
    simp [BankParser.parse, hC] at htx
  | true =>
    cases hA : p.extract_amount body with
    | none =>
      refine ⟨by simp [BankParser.parse, hC, hA], ?_⟩
      intro tx htx
      simp [BankParser.parse, hC, hA] at htx
    | some a =>
      cases hT : p.extract_transaction_type body with
      | none =>
        refine ⟨by simp [BankParser.parse, hC, hA, hT], ?_⟩
        intro tx htx
        simp [BankParser.parse, hC, hA, hT] at htx
      | some k =>
        have hps : BankParser.parse p body sender ts = some
            { amount := a
              type := k
              merchant := p.extract_merchant body sender
              reference := p.extract_reference body
              accountLast4 := p.extract_account_last4 body
              balance := p.extract_balance body
              creditLimit :=
                if k = TransactionType.CREDIT then p.extract_available_limit body else none
              smsBody := body
              sender := sender
              timestamp := ts
              bankName := p.bankName
              isFromCard := p.detect_is_card body
              currency := p.currency } := by
          simp [BankParser.parse, hC, hA, hT]
        refine ⟨by simp [hps], ?_⟩
        intro tx htx
        rw [hps] at htx
        cases htx
        exact ⟨rfl, rfl, rfl, rfl, rfl, rfl, rfl, rfl, rfl, rfl, rfl, rfl, rfl, rfl⟩

/-- Instance of `parse_binary_outcome` at a concrete record and
message. -/
theorem parse_binary_outcome_instance :
    pipelineDemoMethods.is_transaction_message (("Rs.5 debited").toList) = true
    ∧ pipelineDemoMethods.extract_amount (("Rs.5 debited").toList) = some 5 := by
  have h :=
    (parse_binary_outcome pipelineDemoMethods (("Rs.5 debited").toList) (("S").toList) 0).2
      { amount := 5
        type := TransactionType.EXPENSE
        merchant := none
        reference := none
        accountLast4 := none
        balance := none
        creditLimit := none
        smsBody := ("Rs.5 debited").toList
        sender := ("S").toList
        timestamp := 0
        bankName := ("Demo Bank").toList
        isFromCard := false
        currency := ("INR").toList }
      (by decide)
  exact ⟨h.1, h.2.1⟩

/-- C6: dispatch returns the first parser in the ordered list whose
`can_handle(sender)` is true — `none` exactly when no registered
parser accepts, and registration order alone decides the winner —
and the factory's loop agrees with the registry's. -/
theorem dispatch_first_match (parsers : List RegisteredParser) (sender : List Char) :
    (BankParserRegistry.getParser parsers sender = none ↔
      ∀ q ∈ parsers, q.can_handle sender = false)
    ∧ (∀ p, BankParserRegistry.getParser parsers sender = some p ↔
        (p.can_handle sender = true
          ∧ ∃ pre post, parsers = pre ++ p :: post
              ∧ ∀ q ∈ pre, q.can_handle sender = false))
    ∧ BankParserFactory.getParser parsers sender =
        BankParserRegistry.getParser parsers sender := by
  induction parsers with
  | nil =>
    refine ⟨by simp [BankParserRegistry.getParser], ?_, by rfl⟩
    intro p
    simp [BankParserRegistry.getParser]
  | cons q ps ih =>
    constructor
    · cases hq : q.can_handle sender with
      | true => simp [BankParserRegistry.getParser, hq]
      | false =>
        simp only [BankParserRegistry.getParser, hq, if_neg Bool.false_ne_true]
        rw [ih.1]
        constructor
        · intro h r hr
          rcases List.mem_cons.mp hr with rfl | hr
          · exact hq
          · exact h r hr
        · intro h r hr
          exact h r (List.mem_cons_of_mem q hr)
    · constructor
      · intro p
        cases hq : q.can_handle sender with
        | true =>
          have hget : BankParserRegistry.getParser (q :: ps) sender = some q := by
            simp [BankParserRegistry.getParser, hq]
          rw [hget]
          constructor
          · intro h
            cases h
            exact ⟨hq, [], ps, rfl, by intro r hr; cases hr⟩
          · rintro ⟨hp, pre, post, hsplit, hpre⟩
            cases pre with
            | nil =>
              simp only [List.nil_append, List.cons.injEq] at hsplit
              rw [hsplit.1]
            | cons r rs =>
              simp only [List.cons_append, List.cons.injEq] at hsplit
              have hr := hpre r (by simp)
              rw [hsplit.1] at hq
              rw [hq] at hr
              cases hr
        | false =>
          simp only [BankParserRegistry.getParser, hq, if_neg Bool.false_ne_true]
          rw [(ih.2.1) p]
          constructor
          · rintro ⟨hp, pre, post, hsplit, hpre⟩
            refine ⟨hp, q :: pre, post, by rw [hsplit, List.cons_append], ?_⟩
            intro r hr
            rcases List.mem_cons.mp hr with rfl | hr
            · exact hq
            · exact hpre r hr
          · rintro ⟨hp, pre, post, hsplit, hpre⟩
            cases pre with
            | nil =>
              simp only [List.nil_append, List.cons.injEq] at hsplit
              rw [← hsplit.1] at hp
              rw [hp] at hq
              cases hq
            | cons r rs =>
              simp only [List.cons_append, List.cons.injEq] at hsplit
              refine ⟨hp, rs, post, hsplit.2, ?_⟩
              intro u hu
              exact hpre u (by simp [hu])
      · show BankParserFactory.getParser (q :: ps) sender = _
        simp only [BankParserFactory.getParser, BankParserRegistry.getParser]
        rw [ih.2.2]

/-- Instance of `dispatch_first_match`: two overlapping sender
predicates; the first registered parser wins, although the later one
also accepts. -/
theorem dispatch_first_match_instance :
    BankParserRegistry.getParser [demoParserA, demoParserB] (("XX-SBIBNK-S").toList)
      = some demoParserA
    ∧ demoParserB.can_handle (("XX-SBIBNK-S").toList) = true := by
  refine ⟨((dispatch_first_match [demoParserA, demoParserB] (("XX-SBIBNK-S").toList)).2.1
      demoParserA).mpr ⟨by decide, [], [demoParserB], rfl, ?_⟩, by decide⟩
  intro q hq
  cases hq

/-- C7: the identity hash is a function of only the sender, the
2-decimal-normalized amount and the message body: transactions
agreeing on those three agree on
`generate_transaction_id`, whatever their other fields and whatever
the hash primitive. -/
theorem identity_hash_determined (md5hex : List Char → List Char)
    (t1 t2 : ParsedTransaction)
    (hs : t1.sender = t2.sender) (hb : t1.smsBody = t2.smsBody)
    (ha : quantize2 t1.amount = quantize2 t2.amount) :
    generate_transaction_id md5hex t1 = generate_transaction_id md5hex t2 := by
  unfold generate_transaction_id
  rw [hs, hb, ha]

/-- Instance of `identity_hash_determined`: two transactions differing
in merchant, reference, account tail, balance, limit, kind, bank,
card flag, currency and timestamp get the same identity. -/
theorem identity_hash_determined_instance :
    generate_transaction_id List.reverse identityDemoTxn1
      = generate_transaction_id List.reverse identityDemoTxn2
    ∧ identityDemoTxn1.merchant ≠ identityDemoTxn2.merchant := by
  exact ⟨identity_hash_determined List.reverse identityDemoTxn1 identityDemoTxn2 rfl rfl rfl,
    by decide⟩

/-- The Iranian amount loop only ever returns values of at least
1000. -/
theorem iranianAmountLoop_ge (message : List Char) :
    ∀ (ps : List Pattern) (a : Rat),
      BaseIranianBankParser.iranianAmountLoop message ps = some a → 1000 ≤ a := by
  intro ps
  induction ps with
  | nil =>
    intro a h
    simp [BaseIranianBankParser.iranianAmountLoop] at h
  | cons p ps ih =>
    intro a h
    unfold BaseIranianBankParser.iranianAmountLoop at h
    repeat' split at h
    all_goals
      first
      | exact ih a h
      | (cases h; assumption)
      | cases h

/-- C10: the Iranian base's amount extractor returns an amount only
when the matched rial/toman value is at least 1000 (a matched value
below 1000 yields `none`), and whenever it yields `none` the whole
`parse` on the Iranian base returns `none`. -/
theorem iranian_minimum_amount (message : List Char) :
    (∀ a, BaseIranianBankParser.extract_amount message = some a → 1000 ≤ a)
    ∧ (BaseIranianBankParser.extract_amount message = none →
        ∀ (bankName sender : List Char) (ts : Int),
          BankParser.parse (BaseIranianBankParser.methods bankName) message sender ts = none) := by
  constructor
  · intro a h
    exact iranianAmountLoop_ge message _ a h
  · intro h0 bankName sender ts
    have hA : (BaseIranianBankParser.methods bankName).extract_amount message = none := h0
    cases hC : (BaseIranianBankParser.methods bankName).is_transaction_message message with
    | false => simp [BankParser.parse, hC]
    | true => simp [BankParser.parse, hC, hA]

/-- Instance of `iranian_minimum_amount`: a 5,000-rial message's
amount clears the threshold, and a 500-rial message makes the whole
parse return `none`. -/
theorem iranian_minimum_amount_instance :
    (1000 : Rat) ≤ 5000
    ∧ BankParser.parse (BaseIranianBankParser.methods (("Bank Melli").toList))
        iranianSmallMsg (("S").toList) 0 = none := by
  refine ⟨(iranian_minimum_amount iranianLargeMsg).1 5000 (by decide), ?_⟩
  exact (iranian_minimum_amount iranianSmallMsg).2 (by decide) _ _ _

/-- C5: the two marketing example messages yield no match — the root
classifier rejects the pre-approved-card body, so any pipeline using
it parses to `none`; the HDFC parser accepts the example sender but
its classifier rejects the loan body, so its pipeline parses to
`none` — and, universally, the root classifier accepts only when a
transaction verb is present and none of its rejection rules fired. -/
theorem marketing_no_match :
    BankParser.is_transaction_message marketingBody1 = false
    ∧ (∀ (p : BankParserM) (sender : List Char) (ts : Int),
        p.is_transaction_message = BankParser.is_transaction_message →
        BankParser.parse p marketingBody1 sender ts = none)
    ∧ HDFCBankParser.can_handle marketingSender2 = true
    ∧ (∀ (p : BankParserM) (ts : Int),
        p.is_transaction_message = HDFCBankParser.is_transaction_message →
        BankParser.parse p marketingBody2 marketingSender2 ts = none)
    ∧ (∀ message, BankParser.is_transaction_message message = true →
        ((["debited", "credited", "withdrawn", "deposited",
           "spent", "received", "transferred", "paid"].any
            (fun kw => containsL (lowerL message) kw.toList)) = true)
        ∧ ((["otp", "one time password", "verification code"].any
            (fun kw => containsL (lowerL message) kw.toList)) = false)
        ∧ ((["offer", "discount", "cashback offer", "win "].any
            (fun kw => containsL (lowerL message) kw.toList)) = false)
        ∧ ((["has requested", "payment request", "collect request",
             "requesting payment", "requests rs", "ignore if already paid"].any
            (fun kw => containsL (lowerL message) kw.toList)) = false)
        ∧ containsL (lowerL message) (("have received payment").toList) = false
        ∧ ((["is due", "min amount due", "minimum amount due",
             "in arrears", "is overdue", "ignore if paid"].any
            (fun kw => containsL (lowerL message) kw.toList)) = false)
        ∧ (containsL (lowerL message) (("pls pay").toList)
            && containsL (lowerL message) (("min of").toList)) = false) := by
  refine ⟨by decide, ?_, by decide, ?_, ?_⟩
  · intro p sender ts hcls
    have hC : p.is_transaction_message marketingBody1 = false := by rw [hcls]; decide
    simp [BankParser.parse, hC]
  · intro p ts hcls
    have hC : p.is_transaction_message marketingBody2 = false := by rw [hcls]; decide
    simp [BankParser.parse, hC]
  · intro message h
    simp only [BankParser.is_transaction_message] at h
    repeat' split at h
    all_goals try (simp only [Bool.false_eq_true] at h)
    rename_i h1 h2 h3 h4 h5 h6
    simp only [Bool.not_eq_true] at h1 h2 h3 h4 h5 h6
    exact ⟨h, h1, h2, h3, h4, h5, h6⟩

/-- Instance of `marketing_no_match`: the root-default pipeline
rejects the first body; the HDFC-classifying pipeline rejects the
second; a genuine debit message is accepted with its verb present. -/
theorem marketing_no_match_instance :
    BankParser.parse (BankParser.defaults (("X").toList)) marketingBody1 (("S").toList) 0 = none
    ∧ BankParser.parse hdfcClassifyMethods marketingBody2 marketingSender2 0 = none
    ∧ (["debited", "credited", "withdrawn", "deposited",
        "spent", "received", "transferred", "paid"].any
        (fun kw => containsL (lowerL (("Rs.5 debited").toList)) kw.toList)) = true := by
  refine ⟨marketing_no_match.2.1 _ _ 0 rfl, marketing_no_match.2.2.2.1 _ 0 rfl, ?_⟩
  exact (marketing_no_match.2.2.2.2 (("Rs.5 debited").toList) (by decide)).1

/-- C4: the mandate-notice example is a code bug, evaluated here at
the failing input.  `parse_mandate_subscription` never returns a
`MandateInfo` for the e-mandate message: after its guard and amount
extraction succeed it evaluates `re.IGNORE_CASE`, which does not
exist, and raises `AttributeError`.  And the message is not excluded
from the South-Asian base's transaction pipeline: `BankParser.parse`
with the base's methods returns an Expense transaction of 499 for
it. -/
theorem mandate_crash_and_not_excluded :
    exceptErr? (BaseIndianBankParser.parse_mandate_subscription mandateMsg)
      = some (("AttributeError: module 're' has no attribute 'IGNORE_CASE'").toList)
    ∧ (∀ (bankName sender : List Char) (ts : Int),
        (BankParser.parse (BaseIndianBankParser.methods bankName) mandateMsg sender ts).map
            (fun t => (t.amount, t.type))
          = some ((499 : Rat), TransactionType.EXPENSE)) := by
  refine ⟨by decide, ?_⟩
  intro bankName sender ts
  rfl

/-- C2: the claim's expected merchant is wrong on the code: the worked
example parses with merchant `"A/c XX4321"` (the `from`-pattern
captures the account phrase, and the `to AMAZON` capture is discarded
because `AMAZON` is followed by a period, not by one of the
terminators `on`/`at`/`Ref`/`UPI`), which does not contain
`"AMAZON"`. -/
theorem sbi_example_merchant_not_amazon :
    (exceptOk? (SBIBankParser.parse sbiExampleBody sbiExampleSender 0)).map
        (Option.map ParsedTransaction.merchant)
      = some (some (some (("A/c XX4321").toList)))
    ∧ containsL (("A/c XX4321").toList) (("AMAZON").toList) = false := by
  exact ⟨by decide, by decide⟩

/-- Any transaction `BankParser.parse` returns carries the kind its
record's kind extractor produced, and the record's currency. -/
theorem parse_some_type (p : BankParserM) (body sender : List Char) (ts : Int)
    (tx : ParsedTransaction) (h : BankParser.parse p body sender ts = some tx) :
    p.extract_transaction_type body = some tx.type ∧ tx.currency = p.currency := by
  cases hC : p.is_transaction_message body with
  | false => simp [BankParser.parse, hC] at h
  | true =>
    cases hA : p.extract_amount body with
    | none => simp [BankParser.parse, hC, hA] at h
    | some a =>
      cases hT : p.extract_transaction_type body with
      | none => simp [BankParser.parse, hC, hA, hT] at h
      | some k =>
        have hps : BankParser.parse p body sender ts = some
            { amount := a
              type := k
              merchant := p.extract_merchant body sender
              reference := p.extract_reference body
              accountLast4 := p.extract_account_last4 body
              balance := p.extract_balance body
              creditLimit :=
                if k = TransactionType.CREDIT then p.extract_available_limit body else none
              smsBody := body
              sender := sender
              timestamp := ts
              bankName := p.bankName
              isFromCard := p.detect_is_card body
              currency := p.currency } := by
          simp [BankParser.parse, hC, hA, hT]
        rw [hps] at h
        cases h
        exact ⟨rfl, rfl⟩

/-- The root kind extractor's decision chain can only produce
Investment, Expense, Income or nothing, whatever its conditions. -/
theorem kindChain_ne_credit {c1 c2 c3 c4 c5 c6 c7 c8 c9 c10 c11 c12 c13 : Prop}
    [Decidable c1] [Decidable c2] [Decidable c3] [Decidable c4] [Decidable c5]
    [Decidable c6] [Decidable c7] [Decidable c8] [Decidable c9] [Decidable c10]
    [Decidable c11] [Decidable c12] [Decidable c13] :
    (if c1 then some TransactionType.INVESTMENT
     else if c2 then some TransactionType.EXPENSE
     else if c3 then some TransactionType.EXPENSE
     else if c4 then some TransactionType.EXPENSE
     else if c5 then some TransactionType.EXPENSE
     else if c6 then some TransactionType.EXPENSE
     else if c7 then some TransactionType.EXPENSE
     else if c8 then some TransactionType.EXPENSE
     else if c9 then some TransactionType.INCOME
     else if c10 then some TransactionType.INCOME
     else if c11 then some TransactionType.INCOME
     else if c12 then some TransactionType.INCOME
     else if c13 then some TransactionType.INCOME
     else none) ≠ some TransactionType.CREDIT := by
  intro h
  by_cases h1 : c1
  · rw [if_pos h1] at h; exact absurd h (by decide)
  · rw [if_neg h1] at h
    by_cases h2 : c2
    · rw [if_pos h2] at h; exact absurd h (by decide)
    · rw [if_neg h2] at h
      by_cases h3 : c3
      · rw [if_pos h3] at h; exact absurd h (by decide)
      · rw [if_neg h3] at h
        by_cases h4 : c4
        · rw [if_pos h4] at h; exact absurd h (by decide)
        · rw [if_neg h4] at h
          by_cases h5 : c5
          · rw [if_pos h5] at h; exact absurd h (by decide)
          · rw [if_neg h5] at h
            by_cases h6 : c6
            · rw [if_pos h6] at h; exact absurd h (by decide)
            · rw [if_neg h6] at h
              by_cases h7 : c7
              · rw [if_pos h7] at h; exact absurd h (by decide)
              · rw [if_neg h7] at h
                by_cases h8 : c8
                · rw [if_pos h8] at h; exact absurd h (by decide)
                · rw [if_neg h8] at h
                  by_cases h9 : c9
                  · rw [if_pos h9] at h; exact absurd h (by decide)
                  · rw [if_neg h9] at h
                    by_cases h10 : c10
                    · rw [if_pos h10] at h; exact absurd h (by decide)
                    · rw [if_neg h10] at h
                      by_cases h11 : c11
                      · rw [if_pos h11] at h; exact absurd h (by decide)
                      · rw [if_neg h11] at h
                        by_cases h12 : c12
                        · rw [if_pos h12] at h; exact absurd h (by decide)
                        · rw [if_neg h12] at h
                          by_cases h13 : c13
                          · rw [if_pos h13] at h; exact absurd h (by decide)
                          · rw [if_neg h13] at h; exact absurd h (by decide)

/-- C8 (amended): the root default kind extractor never yields
CreditCardCharge at all, so a pipeline running it cannot return a
CreditCardCharge transaction and satisfies the invariant vacuously.
(The claim's universal form over the locale bases and worked-example
leaves is refuted by `sbi_credit_without_card_flag`.) -/
theorem root_kind_never_credit (isInv : List Char → Bool) (body : List Char) :
    BankParser.extract_transaction_type isInv body ≠ some TransactionType.CREDIT
    ∧ (∀ (p : BankParserM) (sender : List Char) (ts : Int) (tx : ParsedTransaction),
        p.extract_transaction_type = BankParser.extract_transaction_type isInv →
        BankParser.parse p body sender ts = some tx →
        tx.type ≠ TransactionType.CREDIT
        ∧ (tx.type = TransactionType.CREDIT → tx.isFromCard = true)) := by
  have h1 : BankParser.extract_transaction_type isInv body ≠ some TransactionType.CREDIT := by
    simp only [BankParser.extract_transaction_type]
    exact kindChain_ne_credit
  refine ⟨h1, ?_⟩
  intro p sender ts tx hp htx
  have hty := (parse_some_type p body sender ts tx htx).1
  rw [hp] at hty
  have hne : tx.type ≠ TransactionType.CREDIT := by
    intro hcr
    rw [hcr] at hty
    exact h1 hty
  exact ⟨hne, fun hcr => absurd hcr hne⟩

/-- Instance of `root_kind_never_credit` at the root defaults and a
plain debit message. -/
theorem root_kind_never_credit_instance :
    demoRootTxn.type ≠ TransactionType.CREDIT
    ∧ (demoRootTxn.type = TransactionType.CREDIT → demoRootTxn.isFromCard = true) :=
  (root_kind_never_credit BankParser.is_investment_transaction (("Rs.5 debited").toList)).2
    (BankParser.defaults (("X").toList)) (("S").toList) 0 demoRootTxn rfl (by decide)

set_option maxRecDepth 16384 in
/-- C8 (counterexample): the SBI leaf returns kind = CREDIT with
`is_from_card = false` — its credit-card branch's
`parsed.isFromCard = True` writes an attribute distinct from the
`is_from_card` field every consumer reads, while `detect_is_card`
reports `false` because the message names explicit account
vocabulary. -/
theorem sbi_credit_without_card_flag :
    (exceptOk? (SBIBankParser.parse sbiCardMsg (("SBICRD").toList) 0)).map
        (Option.map (fun t => (t.type, t.isFromCard)))
      = some (some (TransactionType.CREDIT, false)) := by decide

/-- `firstCodeInMatches` only ever returns non-month codes. -/
theorem firstCodeInMatches_not_month (message : List Char) :
    ∀ (ms : List ReMatch) (code : List Char),
      UAEBankParser.firstCodeInMatches message ms = some code →
      UAEBankParser.is_month_abbreviation code = false := by
  intro ms
  induction ms with
  | nil =>
    intro code h
    exact Option.noConfusion h
  | cons m ms ih =>
    intro code h
    unfold UAEBankParser.firstCodeInMatches at h
    cases hg : m.groupN message 1 with
    | none =>
      simp only [hg] at h
      exact ih code h
    | some g =>
      simp only [hg] at h
      by_cases hne : g ≠ []
      · rw [if_pos hne] at h
        by_cases hc : ((upperL g).length = 3 && (upperL g).all Char.isAlpha
            && !UAEBankParser.is_month_abbreviation (upperL g)) = true
        · rw [if_pos hc] at h
          cases h
          simp only [Bool.and_eq_true, Bool.not_eq_true'] at hc
          exact hc.2
        · rw [if_neg hc] at h
          exact ih code h
      · rw [if_neg hne] at h
        exact ih code h

/-- The currency pattern loop (and its final fallback) only ever
returns non-month codes. -/
theorem currencyPatternLoop_not_month (message : List Char) :
    ∀ (ps : List Pattern) (code : List Char),
      UAEBankParser.currencyPatternLoop message ps = some code →
      UAEBankParser.is_month_abbreviation code = false := by
  intro ps
  induction ps with
  | nil =>
    intro code h
    unfold UAEBankParser.currencyPatternLoop at h
    cases hr : research (reI "\\b([A-Z]\x7b3\x7d)\\s+\\d") message with
    | none =>
      simp only [hr] at h
      exact Option.noConfusion h
    | some m =>
      simp only [hr] at h
      cases hg : m.groupN message 1 with
      | none =>
        simp only [hg] at h
        exact Option.noConfusion h
      | some g =>
        simp only [hg] at h
        by_cases hmon : (!UAEBankParser.is_month_abbreviation (upperL g)) = true
        · rw [if_pos hmon] at h
          cases h
          simp only [Bool.not_eq_true'] at hmon
          exact hmon
        · rw [if_neg hmon] at h
          exact Option.noConfusion h
  | cons p ps ih =>
    intro code h
    unfold UAEBankParser.currencyPatternLoop at h
    cases hf : UAEBankParser.firstCodeInMatches message
        (UAEBankParser.finditer p message) with
    | none =>
      simp only [hf] at h
      exact ih code h
    | some found =>
      simp only [hf] at h
      cases h
      exact firstCodeInMatches_not_month message _ code hf

/-- A successful iteration of the UAE multi-currency amount loop comes
from a match whose code group exists and is not a month
abbreviation. -/
theorem multiAmountStep_not_month (message : List Char) (p : Pattern) (a : Rat)
    (h : UAEBankParser.multiAmountStep message p = some a) :
    ∃ m g1 g2, research p message = some m
      ∧ m.groupN message 1 = some g1 ∧ m.groupN message 2 = some g2
      ∧ UAEBankParser.is_month_abbreviation (upperL g1) = false := by
  unfold UAEBankParser.multiAmountStep at h
  cases hr : research p message with
  | none =>
    simp only [hr] at h
    exact Option.noConfusion h
  | some m =>
    simp only [hr] at h
    cases hg1 : m.groupN message 1 with
    | none =>
      simp only [hg1] at h
      exact Option.noConfusion h
    | some g1 =>
      cases hg2 : m.groupN message 2 with
      | none =>
        simp only [hg1, hg2] at h
        exact Option.noConfusion h
      | some g2 =>
        simp only [hg1, hg2] at h
        by_cases hmon : UAEBankParser.is_month_abbreviation (upperL g1) = true
        · rw [if_pos hmon] at h
          exact Option.noConfusion h
        · have hmon' : UAEBankParser.is_month_abbreviation (upperL g1) = false := by
            simp only [Bool.not_eq_true] at hmon
            exact hmon
          exact ⟨m, g1, g2, rfl, hg1, hg2, hmon'⟩

/-- C9: the Gulf base never mistakes a month abbreviation for a
currency code: `extract_currency` never returns one; every amount the
multi-currency loop returns comes from a match whose code group is
not a month abbreviation (month matches are skipped); and a
transaction returned by `UAEBankParser.parse` never carries a month
abbreviation as its currency — when no valid in-message code is
found the default `"AED"` is kept. -/
theorem uae_currency_never_month (message : List Char) :
    (∀ mon, UAEBankParser.is_month_abbreviation mon = true →
        UAEBankParser.extract_currency message ≠ some mon)
    ∧ (∀ (p : Pattern) (a : Rat), UAEBankParser.multiAmountStep message p = some a →
        ∃ m g1 g2, research p message = some m
          ∧ m.groupN message 1 = some g1 ∧ m.groupN message 2 = some g2
          ∧ UAEBankParser.is_month_abbreviation (upperL g1) = false)
    ∧ (∀ a, UAEBankParser.multiCurrencyAmount message = some a →
        ∃ p, p ∈ UAEBankParser.multiCurrencyAmountPatterns
          ∧ UAEBankParser.multiAmountStep message p = some a)
    ∧ (∀ (bankName sender : List Char) (ts : Int) (t : ParsedTransaction),
        UAEBankParser.parse bankName message sender ts = some t →
        (∀ mon, UAEBankParser.is_month_abbreviation mon = true → t.currency ≠ mon)
        ∧ (UAEBankParser.extract_currency message = none → t.currency = ("AED").toList)) := by
  refine ⟨?_, ?_, ?_, ?_⟩
  · intro mon hmon hc
    have := currencyPatternLoop_not_month message UAEBankParser.currencyPatterns mon hc
    rw [hmon] at this
    cases this
  · intro p a h
    exact multiAmountStep_not_month message p a h
  · intro a h
    unfold UAEBankParser.multiCurrencyAmount at h
    generalize hps : UAEBankParser.multiCurrencyAmountPatterns = ps at h
    clear hps
    induction ps with
    | nil => simp [UAEBankParser.multiAmountLoop] at h
    | cons p ps ih =>
      unfold UAEBankParser.multiAmountLoop at h
      cases hs : UAEBankParser.multiAmountStep message p with
      | some b =>
        rw [hs] at h
        cases h
        exact ⟨p, List.mem_cons_self p ps, hs⟩
      | none =>
        rw [hs] at h
        obtain ⟨q, hq, hstep⟩ := ih h
        exact ⟨q, List.mem_cons_of_mem p hq, hstep⟩
  · intro bankName sender ts t h
    unfold UAEBankParser.parse at h
    cases hb : BankParser.parse (UAEBankParser.methods bankName) message sender ts with
    | none =>
      simp only [hb] at h
      exact Option.noConfusion h
    | some transaction =>
      simp only [hb] at h
      cases hc : UAEBankParser.extract_currency message with
      | some extracted =>
        simp only [hc] at h
        cases h
        have hnm := currencyPatternLoop_not_month message UAEBankParser.currencyPatterns
          extracted hc
        constructor
        · intro mon hmon heq
          have heq2 : extracted = mon := heq
          rw [← heq2] at hmon
          rw [hnm] at hmon
          cases hmon
        · intro hnone
          exact Option.noConfusion hnone
      | none =>
        simp only [hc] at h
        cases h
        have hcur := (parse_some_type _ message sender ts t hb).2
        refine ⟨?_, fun _ => hcur⟩
        intro mon hmon heq
        have heq2 : ("AED").toList = mon := by
          rw [← heq]
          exact hcur.symm
        rw [← heq2] at hmon
        exact absurd hmon (by decide)

/-- Instance of `uae_currency_never_month` at a Gulf message carrying
both a currency code and a month abbreviation. -/
theorem uae_currency_never_month_instance :
    UAEBankParser.extract_currency uaeWitnessMsg ≠ some (("JAN").toList)
    ∧ (∃ p, p ∈ UAEBankParser.multiCurrencyAmountPatterns
        ∧ UAEBankParser.multiAmountStep uaeWitnessMsg p = some 100)
    ∧ uaeWitnessTxn.currency ≠ ("JAN").toList := by
  refine ⟨(uae_currency_never_month uaeWitnessMsg).1 _ (by decide), ?_, ?_⟩
  · exact (uae_currency_never_month uaeWitnessMsg).2.2.1 100 (by decide)
  · exact ((uae_currency_never_month uaeWitnessMsg).2.2.2 (("Gulf Bank").toList)
      (("GULF").toList) 0 uaeWitnessTxn (by decide)).1 (("JAN").toList) (by decide)

/-- C3 (counterexample): a message containing `RRN 123456789012` and
`on 12/05/2099` from which the default extractor returns `"2345"` — a
substring of that RRN — because the guard checks a candidate only
against the *first* `RRN \d` match of the message, here the earlier
`RRN 88888888`. -/
theorem account_guard_rrn_shadowed :
    containsL rrnShadowMsg (("RRN 123456789012").toList) = true
    ∧ containsL rrnShadowMsg (("on 12/05/2099").toList) = true
    ∧ BankParser.extract_account_last4 BankParser.isValidAccountLast4 rrnShadowMsg
        = some (("2345").toList)
    ∧ containsL (("123456789012").toList) (("2345").toList) = true := by
  exact ⟨by decide, by decide, by decide, by decide⟩

/-- A substring occurrence can be split off. -/
theorem containsL_split (needle : List Char) :
    ∀ hay, containsL hay needle = true → ∃ a b, hay = a ++ needle ++ b := by
  intro hay
  induction hay with
  | nil =>
    intro h
    unfold containsL at h
    by_cases hp : needle.isPrefixOf ([] : List Char) = true
    · have hn : needle = [] := by
        cases needle with
        | nil => rfl
        | cons c cs => simp [List.isPrefixOf] at hp
      exact ⟨[], [], by simp [hn]⟩
    · rw [if_neg hp] at h
      exact Bool.noConfusion h
  | cons c rest ih =>
    intro h
    unfold containsL at h
    by_cases hp : needle.isPrefixOf (c :: rest) = true
    · obtain ⟨t, ht⟩ := List.isPrefixOf_iff_prefix.mp hp
      exact ⟨[], t, by rw [← ht]; simp⟩
    · rw [if_neg hp] at h
      obtain ⟨a, b, hab⟩ := ih h
      exact ⟨c :: a, b, by rw [hab]; rfl⟩

/-- The date-adjacency pattern for `"2099"` matches at the start of
any text beginning `12/05/2099`, whatever follows. -/
theorem matchAt_dp2099 (b : List Char) (pos : Nat) (prev : Option Char) :
    (matchAt dp2099 (("12/05/2099").toList ++ b) pos prev).isSome = true := rfl

/-- One-step unfolding of the search loop. -/
theorem searchFrom_eq (p : Pattern) (s : List Char) (pos : Nat) (prev : Option Char) :
    searchFrom p s pos prev =
      match matchAt p s pos prev with
      | some m => some m
      | none =>
        match s with
        | [] => none
        | c :: rs => searchFrom p rs (pos + 1) (some c) := by
  cases s with
  | nil =>
    cases hma : matchAt p [] pos prev with
    | some m => simp only [searchFrom, hma]
    | none => simp only [searchFrom, hma]
  | cons c rs =>
    cases hma : matchAt p (c :: rs) pos prev with
    | some m => simp only [searchFrom, hma]
    | none => simp only [searchFrom, hma]

/-- The search for the `"2099"` date-adjacency pattern succeeds on any
message with `12/05/2099` inside. -/
theorem searchFrom_dp2099 :
    ∀ (a b : List Char) (pos : Nat) (prev : Option Char),
      (searchFrom dp2099 (a ++ ("12/05/2099").toList ++ b) pos prev).isSome = true := by
  intro a
  induction a with
  | nil =>
    intro b pos prev
    have hm := matchAt_dp2099 b pos prev
    rw [searchFrom_eq]
    simp only [List.nil_append]
    cases hma : matchAt dp2099 (("12/05/2099").toList ++ b) pos prev with
    | some m => simp [hma]
    | none =>
      rw [hma] at hm
      exact Bool.noConfusion hm
  | cons c a ih =>
    intro b pos prev
    rw [searchFrom_eq]
    simp only [List.cons_append]
    cases hma : matchAt dp2099 (c :: (a ++ ("12/05/2099").toList ++ b)) pos prev with
    | some m => simp [hma]
    | none =>
      simp only [hma]
      exact ih b (pos + 1) (some c)

/-- Whatever the account-pattern loop returns passed its validity
guard. -/
theorem accountPatternLoop_sound (isValid : List Char → List Char → Bool)
    (message : List Char) :
    ∀ (ps : List Pattern) (l4 : List Char),
      BankParser.accountPatternLoop isValid message ps = some l4 →
      isValid l4 message = true := by
  intro ps
  induction ps with
  | nil =>
    intro l4 h
    exact Option.noConfusion h
  | cons p ps ih =>
    intro l4 h
    unfold BankParser.accountPatternLoop at h
    cases hr : research p message with
    | none =>
      simp only [hr] at h
      exact ih l4 h
    | some m =>
      simp only [hr] at h
      cases hg : m.groupN message 1 with
      | none =>
        simp only [hg] at h
        exact ih l4 h
      | some cand =>
        simp only [hg] at h
        by_cases hv : isValid cand message = true
        · rw [if_pos hv] at h
          cases h
          exact hv
        · rw [if_neg hv] at h
          exact ih l4 h

/-- A candidate the guard accepted triggered neither the
date-adjacency rejection nor the reference-number rejection. -/
theorem guard_true_no_date_no_rrn (l4 msg : List Char)
    (h : BankParser.isValidAccountLast4 l4 msg = true) :
    ((BankParser.datePatterns l4).any (fun dp => (research dp msg).isSome) = false)
    ∧ (BankParser.rrnPatterns.any (fun rp =>
        match research rp msg with
        | some rm =>
          (match rm.groupN msg 1 with
           | some g => containsL g l4
           | none => false)
        | none => false) = false) := by
  unfold BankParser.isValidAccountLast4 at h
  by_cases hA : ((BankParser.datePatterns l4).any (fun dp => (research dp msg).isSome)) = true
  · rw [if_pos hA] at h
    exact Bool.noConfusion h
  · rw [if_neg hA] at h
    by_cases hB : (BankParser.rrnPatterns.any (fun rp =>
        match research rp msg with
        | some rm =>
          (match rm.groupN msg 1 with
           | some g => containsL g l4
           | none => false)
        | none => false)) = true
    · rw [if_pos hB] at h
      exact Bool.noConfusion h
    · simp only [Bool.not_eq_true] at hA hB
      exact ⟨hA, hB⟩

/-- C3 (amended): on a message containing `RRN 123456789012` and
`on 12/05/2099`, the default account-tail extractor never returns
`"2099"`, and any tail it returns is not a substring of the number
captured by the guard's first `RRN`-pattern match nor of its first
`Ref`-pattern match.  (It can, however, return a substring of the
quoted RRN when an earlier reference number shadows it in the
first-match check, as `account_guard_rrn_shadowed` shows — the guard
compares only against the first match of each reference pattern.) -/
theorem account_guard_amended (msg l4 : List Char)
    (_hrrn : containsL msg (("RRN 123456789012").toList) = true)
    (hdate : containsL msg (("on 12/05/2099").toList) = true)
    (hex : BankParser.extract_account_last4 BankParser.isValidAccountLast4 msg = some l4) :
    l4 ≠ ("2099").toList
    ∧ (∀ rp, rp ∈ BankParser.rrnPatterns →
        ∀ rm g, research rp msg = some rm → rm.groupN msg 1 = some g →
          containsL g l4 = false) := by
  have hvalid : BankParser.isValidAccountLast4 l4 msg = true :=
    accountPatternLoop_sound BankParser.isValidAccountLast4 msg
      CompiledPatterns.Account.ALL_PATTERNS l4 hex
  obtain ⟨hnodate, hnorrn⟩ := guard_true_no_date_no_rrn l4 msg hvalid
  constructor
  · intro hl4
    subst hl4
    have hhead : (research dp2099 msg).isSome = false := by
      simp only [BankParser.datePatterns, List.any_cons, List.any_nil,
        Bool.or_eq_false_iff] at hnodate
      exact hnodate.1
    obtain ⟨a, b, hab⟩ := containsL_split _ msg hdate
    have hsplit : ("on 12/05/2099").toList
        = ("on ").toList ++ ("12/05/2099").toList := by decide
    have hsome : (research dp2099 msg).isSome = true := by
      have h := searchFrom_dp2099 (a ++ ("on ").toList) b 0 none
      unfold research
      rw [hab, hsplit]
      simp only [List.append_assoc] at h ⊢
      exact h
    rw [hhead] at hsome
    exact Bool.noConfusion hsome
  · intro rp hrp rm g hrm hg
    simp only [BankParser.rrnPatterns, List.any_cons, List.any_nil,
      Bool.or_eq_false_iff] at hnorrn
    simp only [BankParser.rrnPatterns, List.mem_cons, List.not_mem_nil, or_false] at hrp
    rcases hrp with rfl | rfl
    · have h1 := hnorrn.1
      simp only [hrm, hg] at h1
      exact h1
    · have h2 := hnorrn.2.1
      simp only [hrm, hg] at h2
      exact h2

set_option maxHeartbeats 4000000 in
set_option maxRecDepth 16384 in
/-- Instance of `account_guard_amended` on a message whose account
tail is unrelated to the reference number and the date. -/
theorem account_guard_amended_instance :
    ("7777").toList ≠ ("2099").toList
    ∧ (∀ rp, rp ∈ BankParser.rrnPatterns →
        ∀ rm g, research rp rrnPlainMsg = some rm → rm.groupN rrnPlainMsg 1 = some g →
          containsL g (("7777").toList) = false) :=
  account_guard_amended rrnPlainMsg (("7777").toList) (by decide) (by decide) (by decide)

/-- C2 (amended): the worked example dispatches past HDFC to the SBI
parser and yields amount 1234.56, kind Expense, account_last4
`"4321"`, balance 9876.54, currency `"INR"` — but merchant
`"A/c XX4321"`, not a string containing `"AMAZON"`. -/
theorem sbi_example_end_to_end :
    HDFCBankParser.can_handle sbiExampleSender = false
    ∧ SBIBankParser.can_handle sbiExampleSender = true
    ∧ (exceptOk? (SBIBankParser.parse sbiExampleBody sbiExampleSender 0)).map
        (Option.map ParsedTransaction.view)
      = some (some
          { amount := mkRat 123456 100
            type := TransactionType.EXPENSE
            accountLast4 := some (("4321").toList)
            balance := some (mkRat 987654 100)
            currency := ("INR").toList
            merchant := some (("A/c XX4321").toList) }) := by
  exact ⟨by decide, by decide, by decide⟩

end SmsParser
